import Mathlib

/-!
Shallow embedding of the smartoko detection-media storage pipeline
(`backend/app/core/file_storage_manager.py` and
`backend/app/services/media_service.py`), together with theorems checking
the natural-language specification against it.

Conventions of the embedding:
* filesystem paths are lists of components (`FPath`);
* wall-clock instants are `DateTime` records at second precision (the only
  format the filename generator uses is `%Y%m%d_%H%M%S`); the microsecond
  counter needed by `save_detection_media` is passed separately;
* the SHA-256 hex digest is an external library routine, so it enters the
  model as an explicit function parameter `sha : String → String` of which
  nothing is assumed;
* `datetime` field ranges (month 1..12 and so on) make Python's zero-padded
  formatting total; the model formats with `fmtPad`, which agrees with
  Python's `{n:0wd}` on every in-range value.
-/

namespace Smartoko

/-- A filesystem path, given as its list of components. -/
abbrev FPath := List String

/-- A wall-clock instant at second precision, as used by `strftime("%Y%m%d_%H%M%S")`. -/
structure DateTime where
  year : Nat
  month : Nat
  day : Nat
  hour : Nat
  minute : Nat
  second : Nat
deriving DecidableEq

/-- Field bounds under which Python's zero-padded rendering is injective.
Every real `datetime` value satisfies these (months are 1..12, and so on). -/
def DateTime.Valid (t : DateTime) : Prop :=
  t.year < 10000 ∧ t.month < 100 ∧ t.day < 100 ∧
    t.hour < 100 ∧ t.minute < 100 ∧ t.second < 100

instance (t : DateTime) : Decidable t.Valid := by
  unfold DateTime.Valid; infer_instance

/-- Exactly `w` decimal digits of `n`, zero padded (the value of Python's
`f"{n:0wd}"` whenever `n < 10^w`). -/
def padDigits : Nat → Nat → List Char
  | 0, _ => []
  | w + 1, n => padDigits w (n / 10) ++ [Nat.digitChar (n % 10)]

/-- Python's `f"{n:0wd}"`: zero padded to width `w`, wider only when `n` needs
more than `w` digits. -/
def fmtPad (w n : Nat) : String :=
  if n < 10 ^ w then String.mk (padDigits w n) else toString n

/-- `strftime("%Y%m%d_%H%M%S")`. -/
def fmtTs (t : DateTime) : String :=
  String.mk (padDigits 4 t.year ++ padDigits 2 t.month ++ padDigits 2 t.day ++
    '_' :: (padDigits 2 t.hour ++ padDigits 2 t.minute ++ padDigits 2 t.second))

/-- Index of the last `'.'` in a character list, if any (`str.rfind('.')`). -/
def lastDotIdx (cs : List Char) : Option Nat :=
  match cs.reverse.findIdx? (· = '.') with
  | none => none
  | some j => some (cs.length - 1 - j)

/-- `pathlib.PurePath.suffix` of a bare file name: the part from the last dot
on, provided that dot is neither the first nor the last character. -/
def pySuffix (name : String) : String :=
  let cs := name.data
  match lastDotIdx cs with
  | some i => if 0 < i ∧ i < cs.length - 1 then String.mk (cs.drop i) else ""
  | none => ""

/-- `pathlib.PurePath.stem` of a bare file name. -/
def pyStem (name : String) : String :=
  let cs := name.data
  match lastDotIdx cs with
  | some i => if 0 < i ∧ i < cs.length - 1 then String.mk (cs.take i) else name
  | none => name

/-- ASCII lower-casing, the effect of `str.lower()` on the ASCII range. -/
def strLower (s : String) : String := String.mk (s.data.map Char.toLower)

/-- The sanitized stem of the original file name: keep alphanumeric, `-`, `_`;
cap at 15 characters (`file_storage_manager.py:126-128`). `isalnum` is
modelled on the ASCII range. -/
def sanitizeStem (name : String) : String :=
  String.mk (((pyStem name).data.filter
    (fun c => c.isAlphanum || c = '-' || c = '_')).take 15)

/-- `_get_default_extension` (`file_storage_manager.py:158-166`). -/
def defaultExt (ft : String) : String :=
  if ft = "thumbnail" then ".jpg"
  else if ft = "image" then ".jpg"
  else if ft = "video" then ".mp4"
  else if ft = "video_clip" then ".mp4"
  else ".bin"

/-- The string fed to SHA-256 in `_generate_filename`
(`file_storage_manager.py:134`): sequence, detection-time string,
processing-time string, artifact kind, sanitized stem, environment. -/
def hashInputStr (seq : Nat) (det_s proc_s ft stem env : String) : String :=
  toString seq ++ "_" ++ det_s ++ "_" ++ proc_s ++ "_" ++ ft ++ "_" ++ stem ++ "_" ++ env

/-- The `safe_original_name` local of `_generate_filename`
(`file_storage_manager.py:124-131`): empty when no original name was given
(or the given one is Python-falsy), the sanitized stem otherwise. -/
def gfStem (original : Option String) : String :=
  match original with
  | some name => if name = "" then "" else sanitizeStem name
  | none => ""

/-- The `file_extension` local of `_generate_filename`
(`file_storage_manager.py:124-131`). -/
def gfExt (ft : String) (original : Option String) : String :=
  match original with
  | some name => if name = "" then defaultExt ft else strLower (pySuffix name)
  | none => defaultExt ft

/-- The `security_hash` local (`file_storage_manager.py:133-135`): first 8
characters of the digest of the hash-input string. -/
def gfHash8 (sha : String → String) (env : String) (seq : Nat) (ft : String)
    (det now : DateTime) (original : Option String) : String :=
  String.mk ((sha (hashInputStr seq (fmtTs det) (fmtTs now) ft (gfStem original) env)).data.take 8)

/-- The `base_filename` local (`file_storage_manager.py:138`). -/
def gfBase (sha : String → String) (env : String) (seq : Nat) (ft : String)
    (det now : DateTime) (original : Option String) : String :=
  "det" ++ fmtPad 6 seq ++ "_" ++ fmtTs det ++ "_" ++ fmtTs now ++ "_" ++
    gfHash8 sha env seq ft det now original

/-- `FileStorageManager._generate_filename` (`file_storage_manager.py:109-156`).
`sha` stands for the external `hashlib.sha256(...).hexdigest()`; the model
takes its first 8 characters exactly as the source does. `original = none`
models both a missing argument and Python's falsy empty string. -/
def generate_filename (sha : String → String) (env : String) (seq : Nat)
    (ft : String) (det now : DateTime) (original : Option String) : String :=
  if ft = "thumbnail" then "thumb_" ++ gfBase sha env seq ft det now original ++ ".jpg"
  else if ft = "video_clip" then "clip_" ++ gfBase sha env seq ft det now original ++ ".mp4"
  else if ft = "image" then
    (if gfStem original = "" then
      "img_" ++ gfBase sha env seq ft det now original ++ gfExt ft original
    else
      "img_" ++ gfBase sha env seq ft det now original ++ "_" ++ gfStem original ++
        gfExt ft original)
  else if ft = "video" then
    (if gfStem original = "" then
      "vid_" ++ gfBase sha env seq ft det now original ++ gfExt ft original
    else
      "vid_" ++ gfBase sha env seq ft det now original ++ "_" ++ gfStem original ++
        gfExt ft original)
  else "file_" ++ gfBase sha env seq ft det now original ++ gfExt ft original

/-- The kind-dependent filename tag (`file_storage_manager.py:140-156`). -/
def gfKindTag (ft : String) : String :=
  if ft = "thumbnail" then "thumb_"
  else if ft = "video_clip" then "clip_"
  else if ft = "image" then "img_"
  else if ft = "video" then "vid_"
  else "file_"

/-- First maximal run of decimal digits in a character list
(the first match of `re.findall(r'\d+', ...)`). -/
def firstDigitRun : List Char → Option (List Char)
  | [] => none
  | c :: rest =>
    if c.isDigit then some (c :: rest.takeWhile Char.isDigit)
    else firstDigitRun rest

/-- Value of a digit run, as `int(...)` reads it. -/
def digitsVal (ds : List Char) : Nat :=
  ds.foldl (fun acc c => 10 * acc + (c.toNat - '0'.toNat)) 0

/-- `FileStorageManager._extract_device_id` (`file_storage_manager.py:553-566`):
first embedded number if it lies in 1..9999, otherwise 1. -/
def extract_device_id (device_name : String) : Nat :=
  match firstDigitRun device_name.data with
  | some ds =>
    let n := digitsVal ds
    if 1 ≤ n ∧ n ≤ 9999 then n else 1
  | none => 1

/-- Join path components with `'/'` (the effect of `PurePosixPath.as_posix` on
the relative part of a stored path). -/
def joinSep (sep : Char) : List (List Char) → List Char
  | [] => []
  | [x] => x
  | x :: y :: ys => x ++ sep :: joinSep sep (y :: ys)

/-- Split a character list at every occurrence of `sep`. -/
def splitSep (sep : Char) : List Char → List (List Char)
  | [] => [[]]
  | c :: rest =>
    match splitSep sep rest with
    | [] => [[c]]
    | r :: rs => if c = sep then [] :: r :: rs else (c :: r) :: rs

def joinPosix (comps : List String) : String :=
  String.mk (joinSep '/' (comps.map String.data))

/-- First `n` characters of a string. -/
def strTake (n : Nat) (s : String) : String := String.mk (s.data.take n)

/-- The startup configuration the manager reads from `settings`
(`config.py:46-62`, `file_storage_manager.py:41-66`). `static_url_head` is
the source's static-files URL setting (default `"/uploads"`); the allow-list
fields belong to the spec-modelled validator. -/
structure Config where
  upload_base_directory : FPath
  static_url_head : String
  environment : String
  max_image_file_size_mb : Nat
  max_video_file_size_mb : Nat
  video_clip_before_seconds : Nat
  video_clip_after_seconds : Nat
  thumbnail_width : Nat
  thumbnail_height : Nat
  thumbnail_quality : Nat
  image_allowed_exts : List String
  video_allowed_exts : List String
deriving DecidableEq

def Config.max_image_bytes (c : Config) : Nat := c.max_image_file_size_mb * 1024 * 1024

def Config.max_video_bytes (c : Config) : Nat := c.max_video_file_size_mb * 1024 * 1024

def Config.images_dir (c : Config) : FPath := c.upload_base_directory ++ ["images"]

def Config.thumbnails_dir (c : Config) : FPath := c.upload_base_directory ++ ["thumbnails"]

def Config.video_clips_dir (c : Config) : FPath := c.upload_base_directory ++ ["video_clips"]

/-- The observable state of the storage tree: which directories exist, and
which files exist with which byte size. -/
structure FS where
  dirs : List FPath
  files : List (FPath × Nat)
deriving DecidableEq

/-- Size of the entry at key `p` in an association list of files. -/
def lookupSize (l : List (FPath × Nat)) (p : FPath) : Option Nat :=
  match l with
  | [] => none
  | e :: rest => if e.1 = p then some e.2 else lookupSize rest p

/-- Remove every entry at key `p`. -/
def removeKey (l : List (FPath × Nat)) (p : FPath) : List (FPath × Nat) :=
  match l with
  | [] => []
  | e :: rest => if e.1 = p then removeKey rest p else e :: removeKey rest p

/-- `Path.stat().st_size` / `Path.exists()`: size of `p` when it is a file. -/
def FS.statSize (fs : FS) (p : FPath) : Option Nat :=
  lookupSize fs.files p

/-- `mkdir(parents=True, exist_ok=True)`: idempotent directory creation. -/
def FS.mkdirp (fs : FS) (p : FPath) : FS :=
  if p ∈ fs.dirs then fs else { fs with dirs := p :: fs.dirs }

/-- Create or overwrite the file at `p` with `sz` bytes. -/
def FS.writeFile (fs : FS) (p : FPath) (sz : Nat) : FS :=
  { fs with files := (p, sz) :: removeKey fs.files p }

/-- `Path.unlink()`, as the total state change (callers model the raising
variant explicitly where the source lets it raise). -/
def FS.removeFile (fs : FS) (p : FPath) : FS :=
  { fs with files := removeKey fs.files p }

/-- `Path.rename`: move a file, a no-op if the source is missing (callers
check existence first). -/
def FS.renameFile (fs : FS) (src dst : FPath) : FS :=
  match fs.statSize src with
  | some n => (fs.removeFile src).writeFile dst n
  | none => fs

/-- Outcome dictionary of the external processors (`{'success': ..., 'error': ...}`). -/
structure ProcResult where
  success : Bool
  error : Option String
deriving DecidableEq

/-- The ambient world the manager runs against: the SHA-256 hex digest, the
content-type sniffer of the spec-modelled validator, possible OS failures of
`shutil.copy2` and of writing the scratch file, and the two external
processors (`ImageProcessor.create_thumbnail`,
`VideoProcessor.extract_detection_clip`), which may raise (`.error`) or
return a `ProcResult` while mutating the filesystem. -/
structure Env where
  sha : String → String
  sniff : FPath → Option String
  copyFail : FPath → FPath → Option String
  writeFail : FPath → Option String
  thumbnail_tool : FPath → FPath → Nat × Nat → Nat → FS → Except String (ProcResult × FS)
  clip_tool : FPath → FPath → DateTime → Nat → Nat → FS → Except String (ProcResult × FS)

/-- Modelled from the spec: `FileValidator.validate_file_comprehensive` lives
in `app/core/media`, which is not among the provided sources. Spec §4.2: check,
short-circuiting on first failure, (1) the file exists, (2) its size is within
the per-kind ceiling, (3) its extension is on the allow-list for the expected
kind, (4) the sniffed content type matches the expected top-level type; any
failure is an ordinary `(false, reason)`, never an exception. -/
def validate_file_comprehensive (cfg : Config) (env : Env) (fs : FS)
    (p : FPath) (expected : String) : Bool × String :=
  match fs.statSize p with
  | none => (false, "file does not exist")
  | some sz =>
    let limit := if expected = "image" then cfg.max_image_bytes else cfg.max_video_bytes
    if sz > limit then (false, "file size exceeds the configured limit")
    else
      let allowed := if expected = "image" then cfg.image_allowed_exts else cfg.video_allowed_exts
      let ext := strLower (pySuffix (p.getLastD ""))
      if allowed.contains ext then
        match env.sniff p with
        | some mime =>
          if strTake (expected.length + 1) mime = expected ++ "/" then (true, "validation passed")
          else (false, "content type mismatch")
        | none => (false, "content type mismatch")
      else (false, "file extension is not allowed")

/-- `FileStorageManager._validate_file` (`file_storage_manager.py:168-195`):
comprehensive validation first, then `stat` (which raises on a vanished file)
and the manager's own per-kind size ceiling. The source interpolates the
current size in megabytes into the oversize messages; the model keeps the
message's fixed part, which is all any theorem states. These two branches are
unreachable anyway because the spec-modelled comprehensive check enforces the
same ceilings first. -/
def validate_file (cfg : Config) (env : Env) (fs : FS)
    (file_type : String) (p : FPath) : Except String (Bool × String) :=
  let expected := if file_type = "image" ∨ file_type = "thumbnail" then "image" else "video"
  let res := validate_file_comprehensive cfg env fs p expected
  if res.1 = false then .ok (false, res.2)
  else
    match fs.statSize p with
    | none => .error "No such file or directory"
    | some file_size =>
      if file_type = "image" ∨ file_type = "thumbnail" then
        if file_size > cfg.max_image_bytes then
          .ok (false, "이미지 파일 크기 초과 (최대 " ++ toString cfg.max_image_file_size_mb ++ "MB)")
        else .ok (true, "검증 통과")
      else if file_type = "video" ∨ file_type = "video_clip" then
        if file_size > cfg.max_video_bytes then
          .ok (false, "동영상 파일 크기 초과 (최대 " ++ toString cfg.max_video_file_size_mb ++ "MB)")
        else .ok (true, "검증 통과")
      else .ok (true, "검증 통과")

/-- The dataclass `FileStorageResult` (`file_storage_manager.py:22-32`). -/
structure FileStorageResult where
  success : Bool
  file_url : Option String := none
  file_path : Option FPath := none
  file_size_bytes : Option Nat := none
  error_message : Option String := none
  file_creation_timestamp : Option DateTime := none
  detection_timestamp : Option DateTime := none
  storage_environment : Option String := none
deriving DecidableEq

/-- `_generate_file_path` (`file_storage_manager.py:97-107`):
`base/YYYY/MM/device_NNN` (the mkdir effect is applied by the callers). -/
def organizedDir (base : FPath) (device_id : Nat) (det : DateTime) : FPath :=
  base ++ [fmtPad 4 det.year, fmtPad 2 det.month, "device_" ++ fmtPad 3 device_id]

/-- Public URL of a stored artifact (`file_storage_manager.py:236-237`):
static URL head, `'/'`, then the path relative to the upload root in POSIX
form. -/
def mkUrl (cfg : Config) (dest : FPath) : String :=
  cfg.static_url_head ++ "/" ++ joinPosix (dest.drop cfg.upload_base_directory.length)

/-- Failure-shaped `FileStorageResult` as every failure path builds it. -/
def mkFailResult (msg : String) (det now : DateTime) (envName : String) : FileStorageResult :=
  { success := false, error_message := some msg,
    file_creation_timestamp := some now, detection_timestamp := some det,
    storage_environment := some envName }

/-- Python renders `None` in an f-string as the text `None`. -/
def optStr (o : Option String) : String := o.getD "None"

def imgCatchMsg (cfg : Config) (seq : Nat) (e : String) : String :=
  "이미지 저장 실패 [환경=" ++ cfg.environment ++ ", detection_seq=" ++ toString seq ++ "]: " ++ e

def clipCatchMsg (cfg : Config) (seq : Nat) (e : String) : String :=
  "동영상 클립 저장 실패 [환경=" ++ cfg.environment ++ ", detection_seq=" ++ toString seq ++ "]: " ++ e

def thumbCatchMsg (cfg : Config) (seq : Nat) (e : String) : String :=
  "썸네일 저장 실패 [환경=" ++ cfg.environment ++ ", detection_seq=" ++ toString seq ++ "]: " ++ e

/-- The `try`-block of `store_image` (`file_storage_manager.py:207-251`).
An `.error` carries the filesystem as already mutated: a Python exception does
not roll effects back. The single `now` stands for the processing instant the
source reads repeatedly via `datetime.now()` during one call. -/
def store_image_raw (cfg : Config) (env : Env) (fs : FS) (src : FPath)
    (device_id seq : Nat) (det now : DateTime) :
    Except (String × FS) (FileStorageResult × FS) :=
  match validate_file cfg env fs "image" src with
  | .error e => .error (e, fs)
  | .ok (false, msg) => .ok (mkFailResult msg det now cfg.environment, fs)
  | .ok (true, _) =>
    let dir := organizedDir cfg.images_dir device_id det
    let fs1 := fs.mkdirp dir
    let filename := generate_filename env.sha cfg.environment seq "image" det now
      (some (src.getLastD ""))
    let dest := dir ++ [filename]
    match env.copyFail src dest with
    | some e => .error (e, fs1)
    | none =>
      match fs1.statSize src with
      | none => .error ("No such file or directory", fs1)
      | some n =>
        let fs2 := fs1.writeFile dest n
        match fs2.statSize dest with
        | none => .error ("No such file or directory", fs2)
        | some m =>
          .ok ({ success := true, file_url := some (mkUrl cfg dest),
                 file_path := some dest, file_size_bytes := some m,
                 error_message := none,
                 file_creation_timestamp := some now,
                 detection_timestamp := some det,
                 storage_environment := some cfg.environment }, fs2)

/-- `FileStorageManager.store_image` (`file_storage_manager.py:197-262`):
the `try`-block, with every escaping exception converted into a
`success=false` result carrying the contextual message. -/
def store_image (cfg : Config) (env : Env) (fs : FS) (src : FPath)
    (device_id seq : Nat) (det now : DateTime) : FileStorageResult × FS :=
  match store_image_raw cfg env fs src device_id seq det now with
  | .ok r => r
  | .error (e, fs') => (mkFailResult (imgCatchMsg cfg seq e) det now cfg.environment, fs')

/-- Python `x or default` on numeric options: `0` is falsy and also falls back. -/
def orDefaultNat (o : Option Nat) (d : Nat) : Nat :=
  match o with
  | some n => if n = 0 then d else n
  | none => d

/-- The `try`-block of `store_video_clip` (`file_storage_manager.py:280-336`). -/
def store_video_clip_raw (cfg : Config) (env : Env) (fs : FS) (src : FPath)
    (device_id seq : Nat) (det now : DateTime)
    (clip_before clip_after : Option Nat) :
    Except (String × FS) (FileStorageResult × FS) :=
  let before_seconds := orDefaultNat clip_before cfg.video_clip_before_seconds
  let after_seconds := orDefaultNat clip_after cfg.video_clip_after_seconds
  match validate_file cfg env fs "video" src with
  | .error e => .error (e, fs)
  | .ok (false, msg) => .ok (mkFailResult msg det now cfg.environment, fs)
  | .ok (true, _) =>
    let dir := organizedDir cfg.video_clips_dir device_id det
    let fs1 := fs.mkdirp dir
    let filename := generate_filename env.sha cfg.environment seq "video_clip" det now
      (some (src.getLastD ""))
    let dest := dir ++ [filename]
    match env.clip_tool src dest det before_seconds after_seconds fs1 with
    | .error e => .error (e, fs1)
    | .ok (pr, fs2) =>
      if pr.success = false then
        .ok (mkFailResult ("동영상 클립 추출 실패: " ++ optStr pr.error) det now cfg.environment, fs2)
      else
        match fs2.statSize dest with
        | none => .error ("No such file or directory", fs2)
        | some m =>
          .ok ({ success := true, file_url := some (mkUrl cfg dest),
                 file_path := some dest, file_size_bytes := some m,
                 error_message := none,
                 file_creation_timestamp := some now,
                 detection_timestamp := some det,
                 storage_environment := some cfg.environment }, fs2)

/-- `FileStorageManager.store_video_clip` (`file_storage_manager.py:264-347`). -/
def store_video_clip (cfg : Config) (env : Env) (fs : FS) (src : FPath)
    (device_id seq : Nat) (det now : DateTime)
    (clip_before clip_after : Option Nat) : FileStorageResult × FS :=
  match store_video_clip_raw cfg env fs src device_id seq det now clip_before clip_after with
  | .ok r => r
  | .error (e, fs') => (mkFailResult (clipCatchMsg cfg seq e) det now cfg.environment, fs')

/-- The `try`-block of `store_thumbnail` (`file_storage_manager.py:365-420`).
A provided size tuple is always truthy in Python, so only `none` falls back;
a provided quality of `0` is falsy and falls back. -/
def store_thumbnail_raw (cfg : Config) (env : Env) (fs : FS) (src : FPath)
    (device_id seq : Nat) (det now : DateTime)
    (tsize : Option (Nat × Nat)) (jpeg_quality : Option Nat) :
    Except (String × FS) (FileStorageResult × FS) :=
  let thumb_size := tsize.getD (cfg.thumbnail_width, cfg.thumbnail_height)
  let quality := orDefaultNat jpeg_quality cfg.thumbnail_quality
  match validate_file cfg env fs "image" src with
  | .error e => .error (e, fs)
  | .ok (false, msg) => .ok (mkFailResult msg det now cfg.environment, fs)
  | .ok (true, _) =>
    let dir := organizedDir cfg.thumbnails_dir device_id det
    let fs1 := fs.mkdirp dir
    let filename := generate_filename env.sha cfg.environment seq "thumbnail" det now
      (some (src.getLastD ""))
    let dest := dir ++ [filename]
    match env.thumbnail_tool src dest thumb_size quality fs1 with
    | .error e => .error (e, fs1)
    | .ok (pr, fs2) =>
      if pr.success = false then
        .ok (mkFailResult ("썸네일 생성 실패: " ++ optStr pr.error) det now cfg.environment, fs2)
      else
        match fs2.statSize dest with
        | none => .error ("No such file or directory", fs2)
        | some m =>
          .ok ({ success := true, file_url := some (mkUrl cfg dest),
                 file_path := some dest, file_size_bytes := some m,
                 error_message := none,
                 file_creation_timestamp := some now,
                 detection_timestamp := some det,
                 storage_environment := some cfg.environment }, fs2)

/-- `FileStorageManager.store_thumbnail` (`file_storage_manager.py:349-431`). -/
def store_thumbnail (cfg : Config) (env : Env) (fs : FS) (src : FPath)
    (device_id seq : Nat) (det now : DateTime)
    (tsize : Option (Nat × Nat)) (jpeg_quality : Option Nat) : FileStorageResult × FS :=
  match store_thumbnail_raw cfg env fs src device_id seq det now tsize jpeg_quality with
  | .ok r => r
  | .error (e, fs') => (mkFailResult (thumbCatchMsg cfg seq e) det now cfg.environment, fs')

/-- Shape of the dictionary `save_detection_media` returns: the success shape
(`file_storage_manager.py:519-533`) and the `_create_error_response` shape
(`file_storage_manager.py:568-592`), restricted to the fields any claim
observes. An absent `warnings` key is the empty list. -/
structure SaveOutcome where
  success : Bool
  error : Option String := none
  detection_id : Option Nat := none
  device_id : Option Nat := none
  image_url : Option String := none
  thumbnail_url : Option String := none
  video_url : Option String := none
  generated_files : Option Nat := none
  warnings : List String := []
deriving DecidableEq

def errOutcome (e : String) : SaveOutcome := { success := false, error := some e }

/-- The image-family kind strings of `file_storage_manager.py:471`. -/
def imageKinds : List String := ["image", "jpg", "jpeg", "png", "bmp", "webp", "tiff"]

/-- The video-family kind strings of `file_storage_manager.py:493`. -/
def videoKinds : List String := ["video", "mp4", "mov", "avi", "mkv", "webm", "video_clip"]

def tempDirPath : FPath := ["tmp", "smartoko_upload"]

/-- Sanitized upload name (`file_storage_manager.py:451`). -/
def safeUploadName (original : String) : String :=
  String.mk (original.data.filter (fun c => c.isAlphanum || c = '.' || c = '-' || c = '_'))

/-- Scratch path `temp_<%Y%m%d_%H%M%S_%f>_<safe name>` under
`/tmp/smartoko_upload` (`file_storage_manager.py:448-454`). -/
def tempFilePath (now : DateTime) (epochMicros : Nat) (original : String) : FPath :=
  tempDirPath ++
    ["temp_" ++ fmtTs now ++ "_" ++ fmtPad 6 (epochMicros % 1000000) ++ "_" ++
      safeUploadName original]

/-- `FileStorageManager.save_detection_media` (`file_storage_manager.py:433-551`).
`contentSize` is the byte length of the uploaded content; `epochMicros` is the
current epoch time in microseconds, from which the source derives both the
`%f` field of the scratch name and the synthesized detection sequence. The
only step of the body that can raise in the model is writing the scratch file
(`env.writeFail`); the store calls catch internally. On the exception path the
source unlinks the scratch file only if it exists (`file_storage_manager.py:541-546`). -/
def save_detection_media (cfg : Config) (env : Env) (fs : FS) (contentSize : Nat)
    (original_filename device_name : String) (detection_time : DateTime)
    (file_type : String) (now : DateTime) (epochMicros : Nat) : SaveOutcome × FS :=
  let tempPath := tempFilePath now epochMicros original_filename
  let fs0 := fs.mkdirp tempDirPath
  match env.writeFail tempPath with
  | some e =>
    let fsE := if (fs0.statSize tempPath).isSome then fs0.removeFile tempPath else fs0
    (errOutcome ("미디어 파일 저장 중 예외 발생: " ++ e), fsE)
  | none =>
    let fs1 := fs0.writeFile tempPath contentSize
    let device_id := extract_device_id device_name
    let seq := epochMicros % 999999
    if imageKinds.contains (strLower file_type) then
      let r1fs := store_image cfg env fs1 tempPath device_id seq detection_time now
      let r1 := r1fs.1
      let fs2 := r1fs.2
      if r1.success then
        let rtfs := store_thumbnail cfg env fs2 tempPath device_id seq detection_time now
          none none
        let rt := rtfs.1
        let fs3 := rtfs.2
        let warnings := if rt.success then [] else
          ["썸네일 생성 실패: " ++ optStr rt.error_message]
        let fs4 := fs3.removeFile tempPath
        ({ success := true, detection_id := some seq, device_id := some device_id,
           image_url := r1.file_url,
           thumbnail_url := if rt.success then rt.file_url else none,
           generated_files := some (if rt.success then 2 else 1),
           warnings := warnings }, fs4)
      else
        (errOutcome ("이미지 저장 실패: " ++ optStr r1.error_message), fs2)
    else if videoKinds.contains (strLower file_type) then
      let rvfs := store_video_clip cfg env fs1 tempPath device_id seq detection_time now
        none none
      let rv := rvfs.1
      let fs2 := rvfs.2
      if rv.success then
        let fs3 := fs2.removeFile tempPath
        ({ success := true, detection_id := some seq, device_id := some device_id,
           video_url := rv.file_url, generated_files := some 1 }, fs3)
      else
        (errOutcome ("동영상 저장 실패: " ++ optStr rv.error_message), fs2)
    else
      (errOutcome ("지원하지 않는 파일 타입: " ++ file_type), fs1)

/-- The three artifact URLs `_move_files_to_quarantine` looks up under the keys
`original_image`, `thumbnail`, `video_clip`; `none` covers both a missing key
and a falsy url value. -/
structure MediaInfo where
  original_image : Option String := none
  thumbnail : Option String := none
  video_clip : Option String := none
deriving DecidableEq

/-- `url.startswith("/uploads/")` — the literal 9-character check of
`media_service.py:379`. -/
def hasUploadsHead (url : String) : Bool :=
  decide (url.data.take 9 = "/uploads/".data)

/-- `Path(settings.upload_base_directory) / file_url[9:]`
(`media_service.py:380`): resolve the remainder after the literal
`"/uploads/"` against the upload root. -/
def resolveUploadsUrl (root : FPath) (url : String) : FPath :=
  root ++ (splitSep '/' (url.data.drop 9)).map String.mk

/-- `strftime("%Y%m%d")`. -/
def fmtDateYmd (t : DateTime) : String :=
  String.mk (padDigits 4 t.year ++ padDigits 2 t.month ++ padDigits 2 t.day)

/-- One iteration of the loop of `media_service.py:376-391`: skip a missing
key, a falsy url, a url without the `"/uploads/"` head, or a source file that
no longer exists; otherwise move the file under `user_<id>` inside today's
quarantine directory. The accumulator is (count moved, paths moved, state). -/
def moveOne (root qUserDir : FPath) (url? : Option String)
    (acc : Nat × List String × FS) : Nat × List String × FS :=
  match url? with
  | none => acc
  | some url =>
    if url = "" then acc
    else if hasUploadsHead url then
      let cnt := acc.1
      let pathsAcc := acc.2.1
      let fs := acc.2.2
      let src := resolveUploadsUrl root url
      match fs.statSize src with
      | some _ =>
        let qpath := qUserDir ++ [src.getLastD ""]
        let fs' := (fs.mkdirp qUserDir).renameFile src qpath
        (cnt + 1, pathsAcc ++ [joinPosix qpath], fs')
      | none => acc
    else acc

/-- The record `_move_files_to_quarantine` returns (`media_service.py:393-406`). -/
structure QuarantineOutcome where
  success : Bool
  file_count : Nat
  quarantine_path : Option String := none
  file_paths : List String := []
  error : Option String := none
deriving DecidableEq

/-- `MediaService._move_files_to_quarantine` (`media_service.py:366-406`).
Every filesystem step of the loop is total in the model (`mkdir` is
idempotent, `rename` only runs on a source that was just seen to exist), so
the source's `except` branch — which would return `success=false` with
`file_count=0` — is never taken. -/
def move_files_to_quarantine (root : FPath) (now : DateTime) (user_id : Nat)
    (info : MediaInfo) (fs : FS) : QuarantineOutcome × FS :=
  let qbase := root ++ ["quarantine", fmtDateYmd now]
  let fs0 := fs.mkdirp qbase
  let qUserDir := qbase ++ ["user_" ++ toString user_id]
  let acc0 : Nat × List String × FS := (0, [], fs0)
  let acc1 := moveOne root qUserDir info.original_image acc0
  let acc2 := moveOne root qUserDir info.thumbnail acc1
  let acc3 := moveOne root qUserDir info.video_clip acc2
  ({ success := true, file_count := acc3.1,
     quarantine_path := some (joinPosix qUserDir),
     file_paths := acc3.2.1 }, acc3.2.2)

/-! Concrete fixtures used by witnesses and counterexamples. -/

def dtDet : DateTime := ⟨2025, 3, 14, 9, 26, 53⟩

def dtNow : DateTime := ⟨2025, 3, 14, 10, 0, 0⟩

def cfgW : Config :=
  { upload_base_directory := ["uploads"], static_url_head := "/uploads",
    environment := "development", max_image_file_size_mb := 10,
    max_video_file_size_mb := 50, video_clip_before_seconds := 3,
    video_clip_after_seconds := 7, thumbnail_width := 320, thumbnail_height := 240,
    thumbnail_quality := 85, image_allowed_exts := [".jpg", ".jpeg", ".png"],
    video_allowed_exts := [".mp4", ".mov"] }

/-- A benign world: the digest is a fixed hex string, sniffing reports a JPEG,
no OS failures, and both processors succeed while writing their destination. -/
def envW : Env :=
  { sha := fun _ => "0123456789abcdef", sniff := fun _ => some "image/jpeg",
    copyFail := fun _ _ => none, writeFail := fun _ => none,
    thumbnail_tool := fun _ dest _ _ fs => .ok (⟨true, none⟩, fs.writeFile dest 999),
    clip_tool := fun _ dest _ _ _ fs => .ok (⟨true, none⟩, fs.writeFile dest 888) }

def fsW : FS :=
  { dirs := [["uploads"]], files := [(["pics", "photo.jpg"], 2 * 1024 * 1024)] }

/-- A filesystem holding an 11-megabyte image, above the 10-megabyte ceiling
of `cfgW`. -/
def fsBig : FS :=
  { dirs := [["uploads"]], files := [(["pics", "big.jpg"], 11 * 1024 * 1024)] }

/-- The spec's round-trip read-back of a stored URL: strip the configured
static URL head plus the following `'/'`, split the remainder on `'/'` and
resolve it under the storage root. -/
def stripResolve (cfg : Config) (url : String) : Option FPath :=
  if url.data.take (cfg.static_url_head.data.length + 1) =
      (cfg.static_url_head ++ "/").data then
    some (cfg.upload_base_directory ++
      (splitSep '/' (url.data.drop (cfg.static_url_head.data.length + 1))).map String.mk)
  else none

/-- A world where the OS and the copy behave but both processors report
failure through their result dictionary instead of raising. -/
def envToolFailW : Env :=
  { sha := fun _ => "0123456789abcdef", sniff := fun _ => some "image/jpeg",
    copyFail := fun _ _ => none, writeFail := fun _ => none,
    thumbnail_tool := fun _ _ _ _ fs => .ok (⟨false, some "resize failed"⟩, fs),
    clip_tool := fun _ _ _ _ _ fs => .ok (⟨false, some "encode failed"⟩, fs) }

/-- A hostile world: `shutil.copy2` fails at the OS level and both external
processors raise. -/
def envFailW : Env :=
  { sha := fun _ => "0123456789abcdef", sniff := fun _ => some "image/jpeg",
    copyFail := fun _ _ => some "disk full", writeFail := fun _ => none,
    thumbnail_tool := fun _ _ _ _ _ => .error "tool crashed",
    clip_tool := fun _ _ _ _ _ _ => .error "tool crashed" }

theorem padDigits_length (w n : Nat) : (padDigits w n).length = w := by
  induction w generalizing n with
  | zero => rfl
  | succ w ih => simp [padDigits, ih]

theorem digitChar_inj : ∀ a < 10, ∀ b < 10, Nat.digitChar a = Nat.digitChar b → a = b := by
  decide

theorem padDigits_inj (w : Nat) :
    ∀ m n, m < 10 ^ w → n < 10 ^ w → padDigits w m = padDigits w n → m = n := by
  induction w with
  | zero => intro m n hm hn _; simp [pow_zero] at hm hn; omega
  | succ w ih =>
    intro m n hm hn h
    simp only [padDigits] at h
    have hlen : (padDigits w (m / 10)).length = (padDigits w (n / 10)).length := by
      simp [padDigits_length]
    obtain ⟨h1, h2⟩ := List.append_inj h hlen
    have hdig : m % 10 = n % 10 := by
      have := List.head_eq_of_cons_eq h2
      exact digitChar_inj _ (Nat.mod_lt _ (by norm_num)) _ (Nat.mod_lt _ (by norm_num)) this
    have hdiv : m / 10 = n / 10 := by
      apply ih
      · exact Nat.div_lt_of_lt_mul (by rw [pow_succ] at hm; omega)
      · exact Nat.div_lt_of_lt_mul (by rw [pow_succ] at hn; omega)
      · exact h1
    omega

theorem fmtTs_data_length (t : DateTime) : (fmtTs t).data.length = 15 := by
  simp [fmtTs, padDigits_length]

theorem fmtTs_inj {t t' : DateTime} (h : t.Valid) (h' : t'.Valid)
    (he : fmtTs t = fmtTs t') : t = t' := by
  obtain ⟨hy, hmo, hd, hh, hmi, hs⟩ := h
  obtain ⟨hy', hmo', hd', hh', hmi', hs'⟩ := h'
  have hdata := congrArg String.data he
  simp only [fmtTs] at hdata
  obtain ⟨h1, h2⟩ := List.append_inj hdata (by simp [padDigits_length])
  obtain ⟨h3, h5⟩ := List.append_inj h1 (by simp [padDigits_length])
  obtain ⟨hyr, hmon⟩ := List.append_inj h3 (by simp [padDigits_length])
  have h7 := List.tail_eq_of_cons_eq h2
  obtain ⟨h8, h11⟩ := List.append_inj h7 (by simp [padDigits_length])
  obtain ⟨hhr, h10⟩ := List.append_inj h8 (by simp [padDigits_length])
  cases t; cases t'
  simp only [DateTime.mk.injEq]
  refine ⟨?_, ?_, ?_, ?_, ?_, ?_⟩
  · exact padDigits_inj 4 _ _ (by norm_num at hy ⊢; omega) (by norm_num at hy' ⊢; omega) hyr
  · exact padDigits_inj 2 _ _ (by norm_num at hmo ⊢; omega) (by norm_num at hmo' ⊢; omega) hmon
  · exact padDigits_inj 2 _ _ (by norm_num at hd ⊢; omega) (by norm_num at hd' ⊢; omega) h5
  · exact padDigits_inj 2 _ _ (by norm_num at hh ⊢; omega) (by norm_num at hh' ⊢; omega) hhr
  · exact padDigits_inj 2 _ _ (by norm_num at hmi ⊢; omega) (by norm_num at hmi' ⊢; omega) h10
  · exact padDigits_inj 2 _ _ (by norm_num at hs ⊢; omega) (by norm_num at hs' ⊢; omega) h11

/-- If two strings sandwich middles of equal length between a common head and
arbitrary tails, different middles force different strings. -/
theorem string_mid_ne (a b c b' c' : String)
    (hlen : b.data.length = b'.data.length) (hne : b ≠ b') :
    a ++ b ++ c ≠ a ++ b' ++ c' := by
  intro h
  apply hne
  have hd : a.data ++ b.data ++ c.data = a.data ++ b'.data ++ c'.data := by
    have := congrArg String.data h
    simpa [String.data_append] using this
  rw [List.append_assoc, List.append_assoc] at hd
  have hbc : b.data ++ c.data = b'.data ++ c'.data :=
    List.append_cancel_left hd
  exact String.ext (List.append_inj hbc hlen).1

/-! Helper lemmas about the filesystem model. -/

theorem FS.statSize_mkdirp (fs : FS) (p q : FPath) :
    (fs.mkdirp p).statSize q = fs.statSize q := by
  unfold FS.mkdirp FS.statSize
  split <;> rfl

theorem lookupSize_removeKey_self (l : List (FPath × Nat)) (p : FPath) :
    lookupSize (removeKey l p) p = none := by
  induction l with
  | nil => rfl
  | cons a l ih =>
    simp only [removeKey]
    split_ifs with hap
    · exact ih
    · simp only [lookupSize]
      rw [if_neg hap]
      exact ih

theorem lookupSize_removeKey_ne (l : List (FPath × Nat)) (p q : FPath) (h : q ≠ p) :
    lookupSize (removeKey l p) q = lookupSize l q := by
  induction l with
  | nil => rfl
  | cons a l ih =>
    simp only [removeKey]
    split_ifs with hap
    · have haq : ¬ a.1 = q := fun hq => h (hq.symm.trans hap)
      rw [ih]
      simp only [lookupSize]
      rw [if_neg haq]
    · simp only [lookupSize]
      split_ifs with haq
      · rfl
      · exact ih

theorem FS.statSize_writeFile_same (fs : FS) (p : FPath) (n : Nat) :
    (fs.writeFile p n).statSize p = some n := by
  unfold FS.writeFile FS.statSize
  simp [lookupSize]

theorem FS.statSize_writeFile_ne (fs : FS) (p : FPath) (n : Nat) (q : FPath) (h : q ≠ p) :
    (fs.writeFile p n).statSize q = fs.statSize q := by
  unfold FS.writeFile FS.statSize
  simp only [lookupSize]
  rw [if_neg (fun hh : p = q => h hh.symm)]
  exact lookupSize_removeKey_ne _ _ _ h

theorem FS.statSize_removeFile_same (fs : FS) (p : FPath) :
    (fs.removeFile p).statSize p = none := by
  unfold FS.removeFile FS.statSize
  exact lookupSize_removeKey_self _ _

theorem FS.statSize_removeFile_ne (fs : FS) (p q : FPath) (h : q ≠ p) :
    (fs.removeFile p).statSize q = fs.statSize q := by
  unfold FS.removeFile FS.statSize
  exact lookupSize_removeKey_ne _ _ _ h

/-! Helper lemmas about characters and formatted components. -/

theorem digitChar_lt_ten_ne_slash : ∀ m < 10, Nat.digitChar m ≠ '/' := by decide

theorem padDigits_ne_slash (w n : Nat) : ∀ c ∈ padDigits w n, c ≠ '/' := by
  induction w generalizing n with
  | zero => intro c hc; simp [padDigits] at hc
  | succ w ih =>
    intro c hc
    simp only [padDigits, List.mem_append, List.mem_singleton] at hc
    rcases hc with hc | hc
    · exact ih _ c hc
    · exact hc ▸ digitChar_lt_ten_ne_slash _ (Nat.mod_lt _ (by norm_num))

theorem fmtPad_ne_slash (w n : Nat) (h : n < 10 ^ w) :
    ∀ c ∈ (fmtPad w n).data, c ≠ '/' := by
  unfold fmtPad
  rw [if_pos h]
  exact padDigits_ne_slash w n

theorem append_ne_slash {l1 l2 : List Char} (h1 : ∀ c ∈ l1, c ≠ '/')
    (h2 : ∀ c ∈ l2, c ≠ '/') : ∀ c ∈ l1 ++ l2, c ≠ '/' := by
  intro c hc
  rcases List.mem_append.mp hc with hc | hc
  exacts [h1 c hc, h2 c hc]

theorem fmtTs_ne_slash (t : DateTime) : ∀ c ∈ (fmtTs t).data, c ≠ '/' := by
  show ∀ c ∈ padDigits 4 t.year ++ padDigits 2 t.month ++ padDigits 2 t.day ++
    '_' :: (padDigits 2 t.hour ++ padDigits 2 t.minute ++ padDigits 2 t.second), c ≠ '/'
  refine append_ne_slash (append_ne_slash (append_ne_slash
    (padDigits_ne_slash 4 _) (padDigits_ne_slash 2 _)) (padDigits_ne_slash 2 _)) ?_
  intro c hc
  rcases List.mem_cons.mp hc with rfl | hc
  · decide
  · exact append_ne_slash (append_ne_slash
      (padDigits_ne_slash 2 _) (padDigits_ne_slash 2 _)) (padDigits_ne_slash 2 _) c hc

theorem toLower_ne_slash (c : Char) (h : c ≠ '/') : Char.toLower c ≠ '/' := by
  show (if c.toNat ≥ 65 ∧ c.toNat ≤ 90 then Char.ofNat (c.toNat + 32) else c) ≠ '/'
  split_ifs with hrange
  · obtain ⟨h1, h2⟩ := hrange
    generalize hn : c.toNat = n at h1 h2 ⊢
    clear hn
    interval_cases n <;> decide
  · exact h

/-! Splitting on a separator undoes joining, provided no component contains
the separator. -/

theorem splitSep_ne_nil (sep : Char) (l : List Char) : splitSep sep l ≠ [] := by
  induction l with
  | nil => simp [splitSep]
  | cons c rest ih =>
    simp only [splitSep]
    split
    · simp
    · split <;> simp

theorem splitSep_no_sep (sep : Char) (x : List Char) (h : sep ∉ x) :
    splitSep sep x = [x] := by
  induction x with
  | nil => rfl
  | cons c rest ih =>
    have hc : ¬ c = sep := fun hh => h (hh ▸ List.mem_cons_self c rest)
    have hrest : sep ∉ rest := fun hh => h (List.mem_cons_of_mem c hh)
    have step : splitSep sep (c :: rest) =
        match splitSep sep rest with
        | [] => [[c]]
        | r :: rs => if c = sep then [] :: r :: rs else (c :: r) :: rs := rfl
    rw [step, ih hrest]
    simp only []
    rw [if_neg hc]

theorem splitSep_append_sep (sep : Char) (x t : List Char) (h : sep ∉ x) :
    splitSep sep (x ++ sep :: t) = x :: splitSep sep t := by
  induction x with
  | nil =>
    have step : splitSep sep ([] ++ sep :: t) =
        match splitSep sep t with
        | [] => [[sep]]
        | r :: rs => if sep = sep then [] :: r :: rs else (sep :: r) :: rs := rfl
    rw [step]
    cases hsp : splitSep sep t with
    | nil => exact absurd hsp (splitSep_ne_nil sep t)
    | cons r rs => simp
  | cons c rest ih =>
    have hc : ¬ c = sep := fun hh => h (hh ▸ List.mem_cons_self c rest)
    have hrest : sep ∉ rest := fun hh => h (List.mem_cons_of_mem c hh)
    have step : splitSep sep ((c :: rest) ++ sep :: t) =
        match splitSep sep (rest ++ sep :: t) with
        | [] => [[c]]
        | r :: rs => if c = sep then [] :: r :: rs else (c :: r) :: rs := rfl
    rw [step, ih hrest]
    simp only []
    rw [if_neg hc]

theorem splitSep_joinSep (sep : Char) (comps : List (List Char)) (hne : comps ≠ [])
    (h : ∀ x ∈ comps, sep ∉ x) : splitSep sep (joinSep sep comps) = comps := by
  induction comps with
  | nil => exact absurd rfl hne
  | cons x rest ih =>
    cases rest with
    | nil =>
      simp only [joinSep]
      exact splitSep_no_sep sep x (h x (List.mem_cons_self x []))
    | cons y ys =>
      simp only [joinSep]
      rw [splitSep_append_sep sep x _ (h x (List.mem_cons_self x _))]
      rw [ih (by simp) (fun z hz => h z (List.mem_cons_of_mem x hz))]

/-! Reduction lemmas for the quarantine loop body. -/

theorem moveOne_none (root qUserDir : FPath) (acc : Nat × List String × FS) :
    moveOne root qUserDir none acc = acc := rfl

theorem moveOne_skip (root qUserDir : FPath) (url : String)
    (acc : Nat × List String × FS) (h : hasUploadsHead url = false) :
    moveOne root qUserDir (some url) acc = acc := by
  simp only [moveOne]
  split_ifs with hemp hhead
  · rfl
  · rw [hhead] at h; cases h
  · rfl

theorem moveOne_miss (root qUserDir : FPath) (url : String)
    (acc : Nat × List String × FS) (h : hasUploadsHead url = true) (hne : ¬ url = "")
    (hmiss : acc.2.2.statSize (resolveUploadsUrl root url) = none) :
    moveOne root qUserDir (some url) acc = acc := by
  simp only [moveOne]
  rw [if_neg hne, if_pos h, hmiss]

theorem moveOne_hit (root qUserDir : FPath) (url : String)
    (acc : Nat × List String × FS) (h : hasUploadsHead url = true) (hne : ¬ url = "")
    (sz : Nat) (hex : acc.2.2.statSize (resolveUploadsUrl root url) = some sz) :
    moveOne root qUserDir (some url) acc =
      (acc.1 + 1,
       acc.2.1 ++ [joinPosix (qUserDir ++ [(resolveUploadsUrl root url).getLastD ""])],
       (acc.2.2.mkdirp qUserDir).renameFile (resolveUploadsUrl root url)
         (qUserDir ++ [(resolveUploadsUrl root url).getLastD ""])) := by
  simp only [moveOne]
  rw [if_neg hne, if_pos h, hex]

/-- C6: device-id resolution extracts the first embedded number, keeps it when
it lies in 1..9999, falls back to 1 when no number is present or the value is
out of range, and is a total function (the result always lies in 1..9999);
Scenario E: `"Camera-07-backyard"` resolves to 7, `"lobby"` to 1. -/
theorem C6_device_id_resolution (s : String) :
    (1 ≤ extract_device_id s ∧ extract_device_id s ≤ 9999) ∧
    (firstDigitRun s.data = none → extract_device_id s = 1) ∧
    (∀ ds, firstDigitRun s.data = some ds → 1 ≤ digitsVal ds → digitsVal ds ≤ 9999 →
      extract_device_id s = digitsVal ds) ∧
    (∀ ds, firstDigitRun s.data = some ds → ¬ (1 ≤ digitsVal ds ∧ digitsVal ds ≤ 9999) →
      extract_device_id s = 1) ∧
    extract_device_id "Camera-07-backyard" = 7 ∧ extract_device_id "lobby" = 1 := by
  refine ⟨?_, ?_, ?_, ?_, by decide, by decide⟩
  · unfold extract_device_id
    cases h : firstDigitRun s.data with
    | none => decide
    | some ds =>
      simp only []
      split_ifs with hr
      · omega
      · omega
  · intro hn
    unfold extract_device_id
    rw [hn]
  · intro ds hds h1 h2
    unfold extract_device_id
    rw [hds]
    simp only []
    rw [if_pos ⟨h1, h2⟩]
  · intro ds hds hnr
    unfold extract_device_id
    rw [hds]
    simp only []
    rw [if_neg hnr]

/-- Witness for C6: applies the theorem to the label of the spec's Scenario E,
whose first digit run is `"07"` with value 7. -/
theorem C6_witness : extract_device_id "Camera-07-backyard" = digitsVal ['0', '7'] :=
  (C6_device_id_resolution "Camera-07-backyard").2.2.1 ['0', '7']
    (by decide) (by decide) (by decide)

/-- C10: the quarantine mover only handles artifact URLs that begin with the
literal `"/uploads/"`, stripping exactly those 9 characters; a URL with any
other head is skipped — not moved, not counted — no matter what the
configured static URL setting is (the function never reads it) and even when
a file exists under the storage root. -/
theorem C10_quarantine_literal_uploads_head (root : FPath) (now : DateTime)
    (user_id : Nat) (fs : FS) (url rest : String)
    (hno : hasUploadsHead url = false) :
    move_files_to_quarantine root now user_id { original_image := some url } fs =
      ({ success := true, file_count := 0,
         quarantine_path := some (joinPosix ((root ++ ["quarantine", fmtDateYmd now]) ++
           ["user_" ++ toString user_id])),
         file_paths := [] }, fs.mkdirp (root ++ ["quarantine", fmtDateYmd now])) ∧
    resolveUploadsUrl root ("/uploads/" ++ rest) =
      root ++ (splitSep '/' rest.data).map String.mk := by
  constructor
  · show (let qbase := root ++ ["quarantine", fmtDateYmd now]
      let fs0 := fs.mkdirp qbase
      let qUserDir := qbase ++ ["user_" ++ toString user_id]
      let acc0 : Nat × List String × FS := (0, [], fs0)
      let acc1 := moveOne root qUserDir (some url) acc0
      let acc2 := moveOne root qUserDir none acc1
      let acc3 := moveOne root qUserDir none acc2
      (({ success := true, file_count := acc3.1,
          quarantine_path := some (joinPosix qUserDir),
          file_paths := acc3.2.1 }, acc3.2.2) : QuarantineOutcome × FS)) = _
    simp only [moveOne_none, moveOne_skip _ _ _ _ hno]
  · unfold resolveUploadsUrl
    rw [String.data_append]
    rw [List.drop_left' (show ("/uploads/".data).length = 9 from rfl)]

/-- Witness for C10: a URL under the head `"/media"` is skipped and counted as
zero moved files, although the corresponding file exists under the root. -/
theorem C10_witness :
    move_files_to_quarantine ["uploads"] dtNow 5
      { original_image := some "/media/img_x.jpg" }
      { dirs := [["uploads"]], files := [(["uploads", "img_x.jpg"], 1234)] } =
      ({ success := true, file_count := 0,
         quarantine_path := some (joinPosix ((["uploads"] ++ ["quarantine", fmtDateYmd dtNow]) ++
           ["user_" ++ toString 5])),
         file_paths := [] },
       FS.mkdirp { dirs := [["uploads"]], files := [(["uploads", "img_x.jpg"], 1234)] }
         (["uploads"] ++ ["quarantine", fmtDateYmd dtNow])) :=
  (C10_quarantine_literal_uploads_head ["uploads"] dtNow 5
    { dirs := [["uploads"]], files := [(["uploads", "img_x.jpg"], 1234)] }
    "/media/img_x.jpg" "" (by decide)).1

/-- C8: quarantining a detection's artifact set skips every URL whose resolved
source file no longer exists — no exception, the loop simply moves on — and
the returned record reports the count of files actually moved together with
the quarantine directory used; with two of the three URLs pointing at missing
files the moved count is 1. The last conjunct records that the operation
returns `success` for every input. -/
theorem C8_quarantine_skips_missing (root : FPath) (now : DateTime) (user_id : Nat)
    (fs : FS) (u1 u2 u3 : String) (sz : Nat)
    (h1 : hasUploadsHead u1 = true) (h2 : hasUploadsHead u2 = true)
    (h3 : hasUploadsHead u3 = true)
    (hex : fs.statSize (resolveUploadsUrl root u1) = some sz)
    (hm2 : fs.statSize (resolveUploadsUrl root u2) = none)
    (hm3 : fs.statSize (resolveUploadsUrl root u3) = none)
    (hq2 : resolveUploadsUrl root u2 ≠
      (root ++ ["quarantine", fmtDateYmd now]) ++ ["user_" ++ toString user_id] ++
        [(resolveUploadsUrl root u1).getLastD ""])
    (hq3 : resolveUploadsUrl root u3 ≠
      (root ++ ["quarantine", fmtDateYmd now]) ++ ["user_" ++ toString user_id] ++
        [(resolveUploadsUrl root u1).getLastD ""]) :
    (move_files_to_quarantine root now user_id ⟨some u1, some u2, some u3⟩ fs).1.file_count = 1 ∧
    (move_files_to_quarantine root now user_id ⟨some u1, some u2, some u3⟩ fs).1.success = true ∧
    (move_files_to_quarantine root now user_id ⟨some u1, some u2, some u3⟩ fs).1.quarantine_path =
      some (joinPosix ((root ++ ["quarantine", fmtDateYmd now]) ++
        ["user_" ++ toString user_id])) ∧
    (∀ (info : MediaInfo) (fs' : FS),
      (move_files_to_quarantine root now user_id info fs').1.success = true) := by
  have hu1 : ¬ u1 = "" := fun he => absurd (he ▸ h1) (by decide)
  have hu2 : ¬ u2 = "" := fun he => absurd (he ▸ h2) (by decide)
  have hu3 : ¬ u3 = "" := fun he => absurd (he ▸ h3) (by decide)
  have hfs0 : ((fs.mkdirp (root ++ ["quarantine", fmtDateYmd now])).mkdirp
      ((root ++ ["quarantine", fmtDateYmd now]) ++ ["user_" ++ toString user_id])).statSize
        (resolveUploadsUrl root u1) = some sz := by
    rw [FS.statSize_mkdirp, FS.statSize_mkdirp]; exact hex
  have hren : ((fs.mkdirp (root ++ ["quarantine", fmtDateYmd now])).mkdirp
        ((root ++ ["quarantine", fmtDateYmd now]) ++ ["user_" ++ toString user_id])).renameFile
        (resolveUploadsUrl root u1)
        (((root ++ ["quarantine", fmtDateYmd now]) ++ ["user_" ++ toString user_id]) ++
          [(resolveUploadsUrl root u1).getLastD ""]) =
      (((fs.mkdirp (root ++ ["quarantine", fmtDateYmd now])).mkdirp
        ((root ++ ["quarantine", fmtDateYmd now]) ++
          ["user_" ++ toString user_id])).removeFile
        (resolveUploadsUrl root u1)).writeFile
        (((root ++ ["quarantine", fmtDateYmd now]) ++ ["user_" ++ toString user_id]) ++
          [(resolveUploadsUrl root u1).getLastD ""]) sz := by
    unfold FS.renameFile
    rw [hfs0]
  have hs2 : ((((fs.mkdirp (root ++ ["quarantine", fmtDateYmd now])).mkdirp
        ((root ++ ["quarantine", fmtDateYmd now]) ++
          ["user_" ++ toString user_id])).removeFile
        (resolveUploadsUrl root u1)).writeFile
        (((root ++ ["quarantine", fmtDateYmd now]) ++ ["user_" ++ toString user_id]) ++
          [(resolveUploadsUrl root u1).getLastD ""]) sz).statSize
        (resolveUploadsUrl root u2) = none := by
    rw [FS.statSize_writeFile_ne _ _ _ _ hq2]
    by_cases hss : resolveUploadsUrl root u2 = resolveUploadsUrl root u1
    · rw [hss, FS.statSize_removeFile_same]
    · rw [FS.statSize_removeFile_ne _ _ _ hss, FS.statSize_mkdirp, FS.statSize_mkdirp]
      exact hm2
  have hs3 : ((((fs.mkdirp (root ++ ["quarantine", fmtDateYmd now])).mkdirp
        ((root ++ ["quarantine", fmtDateYmd now]) ++
          ["user_" ++ toString user_id])).removeFile
        (resolveUploadsUrl root u1)).writeFile
        (((root ++ ["quarantine", fmtDateYmd now]) ++ ["user_" ++ toString user_id]) ++
          [(resolveUploadsUrl root u1).getLastD ""]) sz).statSize
        (resolveUploadsUrl root u3) = none := by
    rw [FS.statSize_writeFile_ne _ _ _ _ hq3]
    by_cases hss : resolveUploadsUrl root u3 = resolveUploadsUrl root u1
    · rw [hss, FS.statSize_removeFile_same]
    · rw [FS.statSize_removeFile_ne _ _ _ hss, FS.statSize_mkdirp, FS.statSize_mkdirp]
      exact hm3
  have e1 : moveOne root ((root ++ ["quarantine", fmtDateYmd now]) ++
        ["user_" ++ toString user_id]) (some u1)
        (0, [], fs.mkdirp (root ++ ["quarantine", fmtDateYmd now])) =
      (1, [joinPosix (((root ++ ["quarantine", fmtDateYmd now]) ++
          ["user_" ++ toString user_id]) ++ [(resolveUploadsUrl root u1).getLastD ""])],
       (((fs.mkdirp (root ++ ["quarantine", fmtDateYmd now])).mkdirp
         ((root ++ ["quarantine", fmtDateYmd now]) ++
           ["user_" ++ toString user_id])).removeFile
         (resolveUploadsUrl root u1)).writeFile
         (((root ++ ["quarantine", fmtDateYmd now]) ++ ["user_" ++ toString user_id]) ++
           [(resolveUploadsUrl root u1).getLastD ""]) sz) := by
    rw [moveOne_hit root _ u1 _ h1 hu1 sz (by rw [FS.statSize_mkdirp]; exact hex)]
    exact congrArg
      (fun z => ((1 : Nat),
        [joinPosix (((root ++ ["quarantine", fmtDateYmd now]) ++
          ["user_" ++ toString user_id]) ++ [(resolveUploadsUrl root u1).getLastD ""])], z))
      hren
  have e2 : moveOne root ((root ++ ["quarantine", fmtDateYmd now]) ++
        ["user_" ++ toString user_id]) (some u2)
        (1, [joinPosix (((root ++ ["quarantine", fmtDateYmd now]) ++
          ["user_" ++ toString user_id]) ++ [(resolveUploadsUrl root u1).getLastD ""])],
         (((fs.mkdirp (root ++ ["quarantine", fmtDateYmd now])).mkdirp
           ((root ++ ["quarantine", fmtDateYmd now]) ++
             ["user_" ++ toString user_id])).removeFile
           (resolveUploadsUrl root u1)).writeFile
           (((root ++ ["quarantine", fmtDateYmd now]) ++ ["user_" ++ toString user_id]) ++
             [(resolveUploadsUrl root u1).getLastD ""]) sz) =
      (1, [joinPosix (((root ++ ["quarantine", fmtDateYmd now]) ++
          ["user_" ++ toString user_id]) ++ [(resolveUploadsUrl root u1).getLastD ""])],
       (((fs.mkdirp (root ++ ["quarantine", fmtDateYmd now])).mkdirp
         ((root ++ ["quarantine", fmtDateYmd now]) ++
           ["user_" ++ toString user_id])).removeFile
         (resolveUploadsUrl root u1)).writeFile
         (((root ++ ["quarantine", fmtDateYmd now]) ++ ["user_" ++ toString user_id]) ++
           [(resolveUploadsUrl root u1).getLastD ""]) sz) :=
    moveOne_miss root _ u2 _ h2 hu2 hs2
  have e3 : moveOne root ((root ++ ["quarantine", fmtDateYmd now]) ++
        ["user_" ++ toString user_id]) (some u3)
        (1, [joinPosix (((root ++ ["quarantine", fmtDateYmd now]) ++
          ["user_" ++ toString user_id]) ++ [(resolveUploadsUrl root u1).getLastD ""])],
         (((fs.mkdirp (root ++ ["quarantine", fmtDateYmd now])).mkdirp
           ((root ++ ["quarantine", fmtDateYmd now]) ++
             ["user_" ++ toString user_id])).removeFile
           (resolveUploadsUrl root u1)).writeFile
           (((root ++ ["quarantine", fmtDateYmd now]) ++ ["user_" ++ toString user_id]) ++
             [(resolveUploadsUrl root u1).getLastD ""]) sz) =
      (1, [joinPosix (((root ++ ["quarantine", fmtDateYmd now]) ++
          ["user_" ++ toString user_id]) ++ [(resolveUploadsUrl root u1).getLastD ""])],
       (((fs.mkdirp (root ++ ["quarantine", fmtDateYmd now])).mkdirp
         ((root ++ ["quarantine", fmtDateYmd now]) ++
           ["user_" ++ toString user_id])).removeFile
         (resolveUploadsUrl root u1)).writeFile
         (((root ++ ["quarantine", fmtDateYmd now]) ++ ["user_" ++ toString user_id]) ++
           [(resolveUploadsUrl root u1).getLastD ""]) sz) :=
    moveOne_miss root _ u3 _ h3 hu3 hs3
  have key : move_files_to_quarantine root now user_id ⟨some u1, some u2, some u3⟩ fs =
      ({ success := true, file_count := 1,
         quarantine_path := some (joinPosix ((root ++ ["quarantine", fmtDateYmd now]) ++
           ["user_" ++ toString user_id])),
         file_paths := [joinPosix (((root ++ ["quarantine", fmtDateYmd now]) ++
           ["user_" ++ toString user_id]) ++ [(resolveUploadsUrl root u1).getLastD ""])] },
       (((fs.mkdirp (root ++ ["quarantine", fmtDateYmd now])).mkdirp
         ((root ++ ["quarantine", fmtDateYmd now]) ++
           ["user_" ++ toString user_id])).removeFile
         (resolveUploadsUrl root u1)).writeFile
         (((root ++ ["quarantine", fmtDateYmd now]) ++ ["user_" ++ toString user_id]) ++
           [(resolveUploadsUrl root u1).getLastD ""]) sz) := by
    unfold move_files_to_quarantine
    simp only []
    rw [e1, e2, e3]
  refine ⟨by rw [key], by rw [key], by rw [key], ?_⟩
  intro info fs'
  rfl

/-- Witness for C8: three artifact URLs, only the first one's file still
exists; the moved count is exactly 1. -/
theorem C8_witness :
    (move_files_to_quarantine ["uploads"] dtNow 5
      ⟨some "/uploads/images/a.jpg", some "/uploads/images/b.jpg",
        some "/uploads/video_clips/c.mp4"⟩
      { dirs := [["uploads"]],
        files := [(["uploads", "images", "a.jpg"], 100)] }).1.file_count = 1 :=
  (C8_quarantine_skips_missing ["uploads"] dtNow 5
    { dirs := [["uploads"]], files := [(["uploads", "images", "a.jpg"], 100)] }
    "/uploads/images/a.jpg" "/uploads/images/b.jpg" "/uploads/video_clips/c.mp4" 100
    (by decide) (by decide) (by decide) (by decide) (by decide) (by decide)
    (by decide) (by decide)).1

/-- Every generated filename is the kind tag, the sequence and detection-time
segments, then the processing-time string, then a remainder. -/
theorem generate_filename_decomp (sha : String → String) (env : String) (seq : Nat)
    (ft : String) (det now : DateTime) (original : Option String) :
    ∃ suf, generate_filename sha env seq ft det now original =
      (gfKindTag ft ++ ("det" ++ fmtPad 6 seq ++ "_" ++ fmtTs det ++ "_")) ++
        fmtTs now ++ suf := by
  unfold generate_filename gfKindTag gfBase
  split_ifs with h1 h2 h3 h4 h5 h6
  · exact ⟨"_" ++ gfHash8 sha env seq ft det now original ++ ".jpg",
      by simp [String.append_assoc]⟩
  · exact ⟨"_" ++ gfHash8 sha env seq ft det now original ++ ".mp4",
      by simp [String.append_assoc]⟩
  · exact ⟨"_" ++ gfHash8 sha env seq ft det now original ++ gfExt ft original,
      by simp [String.append_assoc]⟩
  · exact ⟨"_" ++ gfHash8 sha env seq ft det now original ++ "_" ++ gfStem original ++
      gfExt ft original, by simp [String.append_assoc]⟩
  · exact ⟨"_" ++ gfHash8 sha env seq ft det now original ++ gfExt ft original,
      by simp [String.append_assoc]⟩
  · exact ⟨"_" ++ gfHash8 sha env seq ft det now original ++ "_" ++ gfStem original ++
      gfExt ft original, by simp [String.append_assoc]⟩
  · exact ⟨"_" ++ gfHash8 sha env seq ft det now original ++ gfExt ft original,
      by simp [String.append_assoc]⟩

/-- C1: for every digest function, detection sequence, artifact kind,
detection timestamp and original filename, filename generation is a function
of its inputs — two calls at the same processing instant return the same
name — and two calls at different processing instants (both within `datetime`
field ranges) return different names: the processing-time segment of the name
itself differs, whatever the hash does. -/
theorem C1_deterministic_filename (sha : String → String) (envName : String)
    (seq : Nat) (ft : String) (det now now' : DateTime) (original : Option String)
    (hv : now.Valid) (hv' : now'.Valid) (hne : now ≠ now') :
    generate_filename sha envName seq ft det now original =
      generate_filename sha envName seq ft det now original ∧
    generate_filename sha envName seq ft det now original ≠
      generate_filename sha envName seq ft det now' original := by
  refine ⟨rfl, ?_⟩
  obtain ⟨s1, hdec1⟩ := generate_filename_decomp sha envName seq ft det now original
  obtain ⟨s2, hdec2⟩ := generate_filename_decomp sha envName seq ft det now' original
  rw [hdec1, hdec2]
  exact string_mid_ne _ _ _ _ _
    (by rw [fmtTs_data_length, fmtTs_data_length])
    (fun he => hne (fmtTs_inj hv hv' he))

/-- Witness for C1: the same call twice is equal, and processing instants one
second apart give different names. -/
theorem C1_witness :
    generate_filename (fun _ => "0123456789abcdef") "development" 42 "image"
      dtDet dtNow (some "photo.jpg") ≠
    generate_filename (fun _ => "0123456789abcdef") "development" 42 "image"
      dtDet ⟨2025, 3, 14, 10, 0, 1⟩ (some "photo.jpg") :=
  (C1_deterministic_filename (fun _ => "0123456789abcdef") "development" 42 "image"
    dtDet dtNow ⟨2025, 3, 14, 10, 0, 1⟩ (some "photo.jpg")
    (by decide) (by decide) (by decide)).2

/-- Case analysis of `store_image`: it either returns the full success record
for the destination it wrote, or a failure record shaped by `mkFailResult`. -/
theorem store_image_split (cfg : Config) (env : Env) (fs : FS) (src : FPath)
    (d seq : Nat) (det now : DateTime) :
    (∃ n, fs.statSize src = some n ∧
      env.copyFail src (organizedDir cfg.images_dir d det ++
        [generate_filename env.sha cfg.environment seq "image" det now
          (some (src.getLastD ""))]) = none ∧
      store_image cfg env fs src d seq det now =
        ({ success := true,
           file_url := some (mkUrl cfg (organizedDir cfg.images_dir d det ++
             [generate_filename env.sha cfg.environment seq "image" det now
               (some (src.getLastD ""))])),
           file_path := some (organizedDir cfg.images_dir d det ++
             [generate_filename env.sha cfg.environment seq "image" det now
               (some (src.getLastD ""))]),
           file_size_bytes := some n, error_message := none,
           file_creation_timestamp := some now, detection_timestamp := some det,
           storage_environment := some cfg.environment },
         (fs.mkdirp (organizedDir cfg.images_dir d det)).writeFile
           (organizedDir cfg.images_dir d det ++
             [generate_filename env.sha cfg.environment seq "image" det now
               (some (src.getLastD ""))]) n)) ∨
    (∃ m fs', store_image cfg env fs src d seq det now =
      (mkFailResult m det now cfg.environment, fs')) := by
  unfold store_image
  cases hraw : store_image_raw cfg env fs src d seq det now with
  | error efs =>
    obtain ⟨e, fse⟩ := efs
    right
    exact ⟨imgCatchMsg cfg seq e, fse, rfl⟩
  | ok r =>
    unfold store_image_raw at hraw
    simp only [] at hraw
    split at hraw
    · exact absurd hraw (fun hh => Except.noConfusion hh)
    · simp only [Except.ok.injEq] at hraw
      right
      exact ⟨_, _, by rw [← hraw]⟩
    · split at hraw
      · exact absurd hraw (fun hh => Except.noConfusion hh)
      · next hcopy =>
        split at hraw
        · exact absurd hraw (fun hh => Except.noConfusion hh)
        · next n hstat =>
          rw [FS.statSize_writeFile_same] at hraw
          simp only [Except.ok.injEq] at hraw
          left
          rw [FS.statSize_mkdirp] at hstat
          exact ⟨n, hstat, hcopy, by rw [← hraw]⟩

/-- Case analysis of `store_thumbnail`: success record or `mkFailResult`. -/
theorem store_thumbnail_split (cfg : Config) (env : Env) (fs : FS) (src : FPath)
    (d seq : Nat) (det now : DateTime) (tsize : Option (Nat × Nat))
    (q : Option Nat) :
    (∃ u p m fs2, store_thumbnail cfg env fs src d seq det now tsize q =
      ({ success := true, file_url := some u, file_path := some p,
         file_size_bytes := some m, error_message := none,
         file_creation_timestamp := some now, detection_timestamp := some det,
         storage_environment := some cfg.environment }, fs2)) ∨
    (∃ m fs', store_thumbnail cfg env fs src d seq det now tsize q =
      (mkFailResult m det now cfg.environment, fs')) := by
  unfold store_thumbnail
  cases hraw : store_thumbnail_raw cfg env fs src d seq det now tsize q with
  | error efs =>
    obtain ⟨e, fse⟩ := efs
    right
    exact ⟨thumbCatchMsg cfg seq e, fse, rfl⟩
  | ok r =>
    unfold store_thumbnail_raw at hraw
    simp only [] at hraw
    split at hraw
    · exact absurd hraw (fun hh => Except.noConfusion hh)
    · simp only [Except.ok.injEq] at hraw
      right
      exact ⟨_, _, by rw [← hraw]⟩
    · split at hraw
      · exact absurd hraw (fun hh => Except.noConfusion hh)
      · split at hraw
        · simp only [Except.ok.injEq] at hraw
          right
          exact ⟨_, _, by rw [← hraw]⟩
        · split at hraw
          · exact absurd hraw (fun hh => Except.noConfusion hh)
          · simp only [Except.ok.injEq] at hraw
            left
            exact ⟨_, _, _, _, by rw [← hraw]⟩

/-- Case analysis of `store_video_clip`: success record or `mkFailResult`. -/
theorem store_video_clip_split (cfg : Config) (env : Env) (fs : FS) (src : FPath)
    (d seq : Nat) (det now : DateTime) (cb ca : Option Nat) :
    (∃ u p m fs2, store_video_clip cfg env fs src d seq det now cb ca =
      ({ success := true, file_url := some u, file_path := some p,
         file_size_bytes := some m, error_message := none,
         file_creation_timestamp := some now, detection_timestamp := some det,
         storage_environment := some cfg.environment }, fs2)) ∨
    (∃ m fs', store_video_clip cfg env fs src d seq det now cb ca =
      (mkFailResult m det now cfg.environment, fs')) := by
  unfold store_video_clip
  cases hraw : store_video_clip_raw cfg env fs src d seq det now cb ca with
  | error efs =>
    obtain ⟨e, fse⟩ := efs
    right
    exact ⟨clipCatchMsg cfg seq e, fse, rfl⟩
  | ok r =>
    unfold store_video_clip_raw at hraw
    simp only [] at hraw
    split at hraw
    · exact absurd hraw (fun hh => Except.noConfusion hh)
    · simp only [Except.ok.injEq] at hraw
      right
      exact ⟨_, _, by rw [← hraw]⟩
    · split at hraw
      · exact absurd hraw (fun hh => Except.noConfusion hh)
      · split at hraw
        · simp only [Except.ok.injEq] at hraw
          right
          exact ⟨_, _, by rw [← hraw]⟩
        · split at hraw
          · exact absurd hraw (fun hh => Except.noConfusion hh)
          · simp only [Except.ok.injEq] at hraw
            left
            exact ⟨_, _, _, _, by rw [← hraw]⟩

/-- C2: each store operation is a total function into
`FileStorageResult × FS` (no exception escapes the coordinator), a successful
result carries no error message, a failed result always carries one, and
whenever the modelled `try`-block raises, the operation returns exactly the
`success=false` record with the contextual catch message of its kind. -/
theorem C2_store_ops_catch_all (cfg : Config) (env : Env) (fs : FS) (src : FPath)
    (d seq : Nat) (det now : DateTime) (cb ca : Option Nat)
    (tsize : Option (Nat × Nat)) (q : Option Nat) :
    (((store_image cfg env fs src d seq det now).1.success = true →
        (store_image cfg env fs src d seq det now).1.error_message = none) ∧
     ((store_image cfg env fs src d seq det now).1.success = false →
        ∃ m, (store_image cfg env fs src d seq det now).1.error_message = some m) ∧
     (∀ e fs', store_image_raw cfg env fs src d seq det now = .error (e, fs') →
        store_image cfg env fs src d seq det now =
          (mkFailResult (imgCatchMsg cfg seq e) det now cfg.environment, fs'))) ∧
    (((store_video_clip cfg env fs src d seq det now cb ca).1.success = true →
        (store_video_clip cfg env fs src d seq det now cb ca).1.error_message = none) ∧
     ((store_video_clip cfg env fs src d seq det now cb ca).1.success = false →
        ∃ m, (store_video_clip cfg env fs src d seq det now cb ca).1.error_message = some m) ∧
     (∀ e fs', store_video_clip_raw cfg env fs src d seq det now cb ca = .error (e, fs') →
        store_video_clip cfg env fs src d seq det now cb ca =
          (mkFailResult (clipCatchMsg cfg seq e) det now cfg.environment, fs'))) ∧
    (((store_thumbnail cfg env fs src d seq det now tsize q).1.success = true →
        (store_thumbnail cfg env fs src d seq det now tsize q).1.error_message = none) ∧
     ((store_thumbnail cfg env fs src d seq det now tsize q).1.success = false →
        ∃ m, (store_thumbnail cfg env fs src d seq det now tsize q).1.error_message = some m) ∧
     (∀ e fs', store_thumbnail_raw cfg env fs src d seq det now tsize q = .error (e, fs') →
        store_thumbnail cfg env fs src d seq det now tsize q =
          (mkFailResult (thumbCatchMsg cfg seq e) det now cfg.environment, fs'))) := by
  refine ⟨⟨?_, ?_, ?_⟩, ⟨?_, ?_, ?_⟩, ⟨?_, ?_, ?_⟩⟩
  · rcases store_image_split cfg env fs src d seq det now with
      ⟨n, _, _, heq⟩ | ⟨m, fs', heq⟩
    · rw [heq]; intro _; rfl
    · rw [heq]; intro h; exact absurd h (by simp [mkFailResult])
  · rcases store_image_split cfg env fs src d seq det now with
      ⟨n, _, _, heq⟩ | ⟨m, fs', heq⟩
    · rw [heq]; intro h; exact absurd h (by simp)
    · rw [heq]; intro _; exact ⟨m, rfl⟩
  · intro e fs' h
    unfold store_image
    rw [h]
  · rcases store_video_clip_split cfg env fs src d seq det now cb ca with
      ⟨u, p, m, fs2, heq⟩ | ⟨m, fs', heq⟩
    · rw [heq]; intro _; rfl
    · rw [heq]; intro h; exact absurd h (by simp [mkFailResult])
  · rcases store_video_clip_split cfg env fs src d seq det now cb ca with
      ⟨u, p, m, fs2, heq⟩ | ⟨m, fs', heq⟩
    · rw [heq]; intro h; exact absurd h (by simp)
    · rw [heq]; intro _; exact ⟨m, rfl⟩
  · intro e fs' h
    unfold store_video_clip
    rw [h]
  · rcases store_thumbnail_split cfg env fs src d seq det now tsize q with
      ⟨u, p, m, fs2, heq⟩ | ⟨m, fs', heq⟩
    · rw [heq]; intro _; rfl
    · rw [heq]; intro h; exact absurd h (by simp [mkFailResult])
  · rcases store_thumbnail_split cfg env fs src d seq det now tsize q with
      ⟨u, p, m, fs2, heq⟩ | ⟨m, fs', heq⟩
    · rw [heq]; intro h; exact absurd h (by simp)
    · rw [heq]; intro _; exact ⟨m, rfl⟩
  · intro e fs' h
    unfold store_thumbnail
    rw [h]

/-- Witness for C2: with a failing copy the image store returns the contextual
catch message, and failing video/thumbnail stores still return results whose
error message is present. -/
theorem C2_witness :
    store_image cfgW envFailW fsW ["pics", "photo.jpg"] 7 42 dtDet dtNow =
      (mkFailResult (imgCatchMsg cfgW 42 "disk full") dtDet dtNow cfgW.environment,
        fsW.mkdirp (organizedDir cfgW.images_dir 7 dtDet)) ∧
    (∃ m, (store_video_clip cfgW envFailW fsW ["vids", "clip.mp4"] 7 42 dtDet dtNow
      none none).1.error_message = some m) ∧
    (∃ m, (store_thumbnail cfgW envFailW fsW ["pics", "photo.jpg"] 7 42 dtDet dtNow
      none none).1.error_message = some m) :=
  ⟨(C2_store_ops_catch_all cfgW envFailW fsW ["pics", "photo.jpg"] 7 42 dtDet dtNow
      none none none none).1.2.2 "disk full"
      (fsW.mkdirp (organizedDir cfgW.images_dir 7 dtDet)) rfl,
   (C2_store_ops_catch_all cfgW envFailW fsW ["vids", "clip.mp4"] 7 42 dtDet dtNow
      none none none none).2.1.2.1 (by decide),
   (C2_store_ops_catch_all cfgW envFailW fsW ["pics", "photo.jpg"] 7 42 dtDet dtNow
      none none none none).2.2.2.1 (by decide)⟩

/-- C5 counterexample: two `store_image` calls that differ only in the device
identifier both succeed, write to different directories, but produce the same
filename — in particular the same embedded 8-hex hash — so the hash input
does not include the device identifier and the hash does not vary with it. -/
theorem C5_counterexample :
    (store_image cfgW envW fsW ["pics", "photo.jpg"] 7 42 dtDet dtNow).1.success = true ∧
    (store_image cfgW envW fsW ["pics", "photo.jpg"] 8 42 dtDet dtNow).1.success = true ∧
    (store_image cfgW envW fsW ["pics", "photo.jpg"] 7 42 dtDet dtNow).1.file_path ≠
      (store_image cfgW envW fsW ["pics", "photo.jpg"] 8 42 dtDet dtNow).1.file_path ∧
    ((store_image cfgW envW fsW ["pics", "photo.jpg"] 7 42 dtDet dtNow).1.file_path.map
      (fun p => p.getLastD "")) =
    ((store_image cfgW envW fsW ["pics", "photo.jpg"] 8 42 dtDet dtNow).1.file_path.map
      (fun p => p.getLastD "")) := by
  refine ⟨by decide, by decide, by decide, by decide⟩

/-- C5 amended: the hash input consists of the detection sequence, both time
strings, the artifact kind, the sanitized original stem and the environment;
the device identifier is not among them, so two successful stores differing
only in the device yield the same filename (hence the same embedded hash) —
the device selects the target directory instead. -/
theorem C5_amended_hash_device_free (cfg : Config) (env : Env) (fs : FS)
    (src : FPath) (d d' seq : Nat) (det now : DateTime)
    (h : (store_image cfg env fs src d seq det now).1.success = true)
    (h' : (store_image cfg env fs src d' seq det now).1.success = true) :
    ((store_image cfg env fs src d seq det now).1.file_path.map
      (fun p => p.getLastD "")) =
    ((store_image cfg env fs src d' seq det now).1.file_path.map
      (fun p => p.getLastD "")) ∧
    (store_image cfg env fs src d seq det now).1.file_path.map
      (fun p => p.getLastD "") =
      some (generate_filename env.sha cfg.environment seq "image" det now
        (some (src.getLastD ""))) := by
  rcases store_image_split cfg env fs src d seq det now with
    ⟨n, _, _, heq⟩ | ⟨m, fs', heq⟩
  · rcases store_image_split cfg env fs src d' seq det now with
      ⟨n', _, _, heq'⟩ | ⟨m', fs'', heq'⟩
    · rw [heq, heq']
      refine ⟨?_, ?_⟩ <;> simp [List.getLastD_concat]
    · rw [heq'] at h'
      exact absurd h' (by simp [mkFailResult])
  · rw [heq] at h
    exact absurd h (by simp [mkFailResult])

/-- Witness for C5's amended claim at devices 7 and 8. -/
theorem C5_amended_witness :
    ((store_image cfgW envW fsW ["pics", "photo.jpg"] 7 42 dtDet dtNow).1.file_path.map
      (fun p => p.getLastD "")) =
    ((store_image cfgW envW fsW ["pics", "photo.jpg"] 8 42 dtDet dtNow).1.file_path.map
      (fun p => p.getLastD "")) :=
  (C5_amended_hash_device_free cfgW envW fsW ["pics", "photo.jpg"] 7 8 42 dtDet dtNow
    (by decide) (by decide)).1

/-- The spec-modelled comprehensive validator rejects an oversized image at
its size check. -/
theorem comprehensive_oversize_image (cfg : Config) (env : Env) (fs : FS)
    (src : FPath) (sz : Nat) (hsz : fs.statSize src = some sz)
    (hover : sz > cfg.max_image_bytes) :
    validate_file_comprehensive cfg env fs src "image" =
      (false, "file size exceeds the configured limit") := by
  unfold validate_file_comprehensive
  rw [hsz]
  simp [hover]

/-- The spec-modelled comprehensive validator rejects an oversized video at
its size check. -/
theorem comprehensive_oversize_video (cfg : Config) (env : Env) (fs : FS)
    (src : FPath) (sz : Nat) (hsz : fs.statSize src = some sz)
    (hover : sz > cfg.max_video_bytes) :
    validate_file_comprehensive cfg env fs src "video" =
      (false, "file size exceeds the configured limit") := by
  unfold validate_file_comprehensive
  rw [hsz]
  simp [hover]

/-- C3: a source file over the configured per-kind ceiling makes validation
return `ok=false` with the size reason, and the store operation then returns
`success=false` with the filesystem left exactly as it was — no file and no
directory created. (Both the image and the video ceiling are covered; the
size reason is the spec-modelled validator's message, since `FileValidator`
itself is not among the provided sources.) -/
theorem C3_oversized_rejected (cfg : Config) (env : Env) (fs : FS) (src : FPath)
    (d seq : Nat) (det now : DateTime) (sz : Nat)
    (hsz : fs.statSize src = some sz) :
    (sz > cfg.max_image_bytes →
      validate_file cfg env fs "image" src =
        .ok (false, "file size exceeds the configured limit") ∧
      (store_image cfg env fs src d seq det now).1.success = false ∧
      (store_image cfg env fs src d seq det now).2 = fs) ∧
    (sz > cfg.max_video_bytes →
      validate_file cfg env fs "video" src =
        .ok (false, "file size exceeds the configured limit") ∧
      (store_video_clip cfg env fs src d seq det now none none).1.success = false ∧
      (store_video_clip cfg env fs src d seq det now none none).2 = fs) := by
  constructor
  · intro hover
    have hval : validate_file cfg env fs "image" src =
        .ok (false, "file size exceeds the configured limit") := by
      unfold validate_file
      simp [comprehensive_oversize_image cfg env fs src sz hsz hover]
    refine ⟨hval, ?_, ?_⟩
    · unfold store_image store_image_raw
      rw [hval]
      rfl
    · unfold store_image store_image_raw
      rw [hval]
  · intro hover
    have hval : validate_file cfg env fs "video" src =
        .ok (false, "file size exceeds the configured limit") := by
      unfold validate_file
      simp [comprehensive_oversize_video cfg env fs src sz hsz hover]
    refine ⟨hval, ?_, ?_⟩
    · unfold store_video_clip store_video_clip_raw
      rw [hval]
      rfl
    · unfold store_video_clip store_video_clip_raw
      rw [hval]

/-- Witness for C3: an 11 MB image against a 10 MB ceiling is rejected and
the filesystem is untouched. -/
theorem C3_witness :
    (store_image cfgW envW fsBig ["pics", "big.jpg"] 7 42 dtDet dtNow).1.success = false ∧
    (store_image cfgW envW fsBig ["pics", "big.jpg"] 7 42 dtDet dtNow).2 = fsBig :=
  ⟨((C3_oversized_rejected cfgW envW fsBig ["pics", "big.jpg"] 7 42 dtDet dtNow
      (11 * 1024 * 1024) (by decide)).1 (by decide)).2.1,
   ((C3_oversized_rejected cfgW envW fsBig ["pics", "big.jpg"] 7 42 dtDet dtNow
      (11 * 1024 * 1024) (by decide)).1 (by decide)).2.2⟩

theorem str_append_ne_slash {a b : String} (ha : ∀ c ∈ a.data, c ≠ '/')
    (hb : ∀ c ∈ b.data, c ≠ '/') : ∀ c ∈ (a ++ b).data, c ≠ '/' := by
  intro c hc
  rw [String.data_append] at hc
  exact append_ne_slash ha hb c hc

theorem gfStem_ne_slash (original : Option String) :
    ∀ c ∈ (gfStem original).data, c ≠ '/' := by
  intro c hc
  unfold gfStem at hc
  rcases original with _ | name
  · simp at hc
  · simp only [] at hc
    split_ifs at hc
    · simp at hc
    · unfold sanitizeStem at hc
      have := (List.mem_filter.mp (List.take_subset _ _ hc)).2
      rintro rfl
      simp at this

theorem gfExt_ne_slash (ft : String) (name : String) (hname : '/' ∉ name.data) :
    ∀ c ∈ (gfExt ft (some name)).data, c ≠ '/' := by
  intro c hc
  unfold gfExt at hc
  simp only [] at hc
  split_ifs at hc
  · unfold defaultExt at hc
    split_ifs at hc <;> (simp at hc; rcases hc with rfl | rfl | rfl | rfl <;> decide)
  · unfold strLower at hc
    rw [List.mem_map] at hc
    obtain ⟨c', hc', rfl⟩ := hc
    have hcn : c' ∈ name.data := by
      unfold pySuffix at hc'
      simp only [] at hc'
      split at hc'
      · split_ifs at hc'
        · exact List.drop_subset _ _ hc'
        · simp at hc'
      · simp at hc'
    exact toLower_ne_slash c' (fun hh => hname (hh ▸ hcn))

theorem gfHash8_ne_slash (sha : String → String) (env : String) (seq : Nat)
    (ft : String) (det now : DateTime) (original : Option String)
    (hsha : ∀ s, '/' ∉ (sha s).data) :
    ∀ c ∈ (gfHash8 sha env seq ft det now original).data, c ≠ '/' := by
  intro c hc
  unfold gfHash8 at hc
  have := List.take_subset 8 _ hc
  exact fun hh => hsha _ (hh ▸ this)

theorem gfBase_ne_slash (sha : String → String) (env : String) (seq : Nat)
    (ft : String) (det now : DateTime) (original : Option String)
    (hsha : ∀ s, '/' ∉ (sha s).data) (hseq : seq < 1000000) :
    ∀ c ∈ (gfBase sha env seq ft det now original).data, c ≠ '/' := by
  unfold gfBase
  exact str_append_ne_slash (str_append_ne_slash (str_append_ne_slash
    (str_append_ne_slash (str_append_ne_slash (str_append_ne_slash
      (str_append_ne_slash (by decide)
        (fmtPad_ne_slash 6 seq (lt_of_lt_of_le hseq (by norm_num))))
      (by decide)) (fmtTs_ne_slash det)) (by decide)) (fmtTs_ne_slash now))
    (by decide)) (gfHash8_ne_slash sha env seq ft det now original hsha)

theorem generate_filename_ne_slash (sha : String → String) (env : String)
    (seq : Nat) (ft : String) (det now : DateTime) (name : String)
    (hsha : ∀ s, '/' ∉ (sha s).data) (hname : '/' ∉ name.data)
    (hseq : seq < 1000000) :
    ∀ c ∈ (generate_filename sha env seq ft det now (some name)).data, c ≠ '/' := by
  have hbase := gfBase_ne_slash sha env seq ft det now (some name) hsha hseq
  have hstem := gfStem_ne_slash (some name)
  have hext := gfExt_ne_slash ft name hname
  unfold generate_filename
  split_ifs
  · exact str_append_ne_slash (str_append_ne_slash (by decide) hbase) (by decide)
  · exact str_append_ne_slash (str_append_ne_slash (by decide) hbase) (by decide)
  · exact str_append_ne_slash (str_append_ne_slash (by decide) hbase) hext
  · exact str_append_ne_slash (str_append_ne_slash (str_append_ne_slash
      (str_append_ne_slash (by decide) hbase) (by decide)) hstem) hext
  · exact str_append_ne_slash (str_append_ne_slash (by decide) hbase) hext
  · exact str_append_ne_slash (str_append_ne_slash (str_append_ne_slash
      (str_append_ne_slash (by decide) hbase) (by decide)) hstem) hext
  · exact str_append_ne_slash (str_append_ne_slash (by decide) hbase) hext

theorem take_len_append (l1 l2 : List Char) (k : Nat) :
    (l1 ++ l2).take (l1.length + k) = l1 ++ l2.take k := by
  induction l1 with
  | nil => simp
  | cons c l1 ih => simp [List.take_succ_cons, Nat.succ_add, ih]

theorem drop_len_append (l1 l2 : List Char) (k : Nat) :
    (l1 ++ l2).drop (l1.length + k) = l2.drop k := by
  induction l1 with
  | nil => simp
  | cons c l1 ih => simp [List.drop_succ_cons, Nat.succ_add, ih]

theorem map_mk_map_data (l : List String) :
    (l.map String.data).map String.mk = l := by
  induction l with
  | nil => rfl
  | cons a l ih => rw [List.map_cons, List.map_cons, ih]

/-- Stripping the configured static head from a URL built by `mkUrl` and
resolving against the storage root recovers exactly the stored path, provided
no path component below the root contains `'/'`. -/
theorem stripResolve_mkUrl (cfg : Config) (rel : List String) (hne : rel ≠ [])
    (hslash : ∀ x ∈ rel, ∀ c ∈ x.data, c ≠ '/') :
    stripResolve cfg (mkUrl cfg (cfg.upload_base_directory ++ rel)) =
      some (cfg.upload_base_directory ++ rel) := by
  unfold mkUrl
  rw [List.drop_left]
  unfold stripResolve
  have hdata : (cfg.static_url_head ++ "/" ++ joinPosix rel).data =
      (cfg.static_url_head.data ++ ['/']) ++ (joinPosix rel).data := by
    rw [String.data_append, String.data_append]
  rw [hdata]
  have htake : ((cfg.static_url_head.data ++ ['/']) ++ (joinPosix rel).data).take
      (cfg.static_url_head.data.length + 1) = cfg.static_url_head.data ++ ['/'] :=
    List.take_left' (by simp)
  have hdrop : ((cfg.static_url_head.data ++ ['/']) ++ (joinPosix rel).data).drop
      (cfg.static_url_head.data.length + 1) = (joinPosix rel).data :=
    List.drop_left' (by simp)
  rw [htake, hdrop, if_pos (by rw [String.data_append])]
  have hsplit : splitSep '/' (joinPosix rel).data = rel.map String.data := by
    unfold joinPosix
    refine splitSep_joinSep '/' (rel.map String.data) (by simpa using hne) ?_
    intro x hx
    rw [List.mem_map] at hx
    obtain ⟨y, hy, rfl⟩ := hx
    intro hmem
    exact hslash y hy '/' hmem rfl
  rw [hsplit, map_mk_map_data]

/-- C9: a successfully stored image's URL round-trips — stripping the
configured static head and resolving the remainder against the storage root
yields exactly the absolute path the operation wrote, the written file exists
in the resulting filesystem, and its size equals the returned byte size. The
hypotheses only rule out `'/'` inside the digest or the original file name,
and keep the sequence, device and timestamp inside Python's formatting
ranges. -/
theorem C9_url_round_trip (cfg : Config) (env : Env) (fs : FS) (src : FPath)
    (d seq : Nat) (det now : DateTime)
    (hsucc : (store_image cfg env fs src d seq det now).1.success = true)
    (hsha : ∀ s, '/' ∉ (env.sha s).data)
    (hname : '/' ∉ (src.getLastD "").data)
    (hd : d < 1000) (hseq : seq < 1000000) (hdet : det.Valid) :
    ∃ dest n,
      (store_image cfg env fs src d seq det now).1.file_path = some dest ∧
      (store_image cfg env fs src d seq det now).1.file_size_bytes = some n ∧
      (store_image cfg env fs src d seq det now).1.file_url = some (mkUrl cfg dest) ∧
      stripResolve cfg (mkUrl cfg dest) = some dest ∧
      (store_image cfg env fs src d seq det now).2.statSize dest = some n := by
  rcases store_image_split cfg env fs src d seq det now with
    ⟨n, hstat, hcopy, heq⟩ | ⟨m, fs', heq⟩
  · refine ⟨organizedDir cfg.images_dir d det ++
      [generate_filename env.sha cfg.environment seq "image" det now
        (some (src.getLastD ""))], n, ?_, ?_, ?_, ?_, ?_⟩
    · rw [heq]
    · rw [heq]
    · rw [heq]
    · have hdest : organizedDir cfg.images_dir d det ++
          [generate_filename env.sha cfg.environment seq "image" det now
            (some (src.getLastD ""))] =
          cfg.upload_base_directory ++
            ["images", fmtPad 4 det.year, fmtPad 2 det.month,
             "device_" ++ fmtPad 3 d,
             generate_filename env.sha cfg.environment seq "image" det now
               (some (src.getLastD ""))] := by
        simp [organizedDir, Config.images_dir]
      rw [hdest]
      refine stripResolve_mkUrl cfg _ (by simp) ?_
      intro x hx
      rcases List.mem_cons.mp hx with rfl | hx
      · decide
      rcases List.mem_cons.mp hx with rfl | hx
      · exact fmtPad_ne_slash 4 det.year (lt_of_lt_of_le hdet.1 (by norm_num))
      rcases List.mem_cons.mp hx with rfl | hx
      · exact fmtPad_ne_slash 2 det.month (lt_of_lt_of_le hdet.2.1 (by norm_num))
      rcases List.mem_cons.mp hx with rfl | hx
      · exact str_append_ne_slash (by decide)
          (fmtPad_ne_slash 3 d (lt_of_lt_of_le hd (by norm_num)))
      rcases List.mem_cons.mp hx with rfl | hx
      · exact generate_filename_ne_slash env.sha cfg.environment seq "image" det now
          (src.getLastD "") hsha hname hseq
      · simp at hx
    · rw [heq]
      exact FS.statSize_writeFile_same _ _ _
  · rw [heq] at hsucc
    exact absurd hsucc (by simp [mkFailResult])

/-- Witness for C9 at a concrete successfully stored 2 MB JPEG. -/
theorem C9_witness :
    ∃ dest n,
      (store_image cfgW envW fsW ["pics", "photo.jpg"] 7 42 dtDet dtNow).1.file_path =
        some dest ∧
      (store_image cfgW envW fsW ["pics", "photo.jpg"] 7 42 dtDet dtNow).1.file_size_bytes =
        some n ∧
      (store_image cfgW envW fsW ["pics", "photo.jpg"] 7 42 dtDet dtNow).1.file_url =
        some (mkUrl cfgW dest) ∧
      stripResolve cfgW (mkUrl cfgW dest) = some dest ∧
      (store_image cfgW envW fsW ["pics", "photo.jpg"] 7 42 dtDet dtNow).2.statSize dest =
        some n :=
  C9_url_round_trip cfgW envW fsW ["pics", "photo.jpg"] 7 42 dtDet dtNow
    (by decide) (fun _ => (by decide : '/' ∉ ("0123456789abcdef" : String).data))
    (by decide) (by decide) (by decide) (by decide)

theorem bool_ne_true {b : Bool} (h : b = false) : ¬ (b = true) := by simp [h]

/-- The image-family and video-family kind lists are disjoint. -/
theorem kinds_disjoint (s : String) (h : videoKinds.contains s = true) :
    imageKinds.contains s = false := by
  simp [videoKinds] at h
  rcases h with rfl | rfl | rfl | rfl | rfl | rfl | rfl <;> decide

/-- C4: in `save_detection_media`, an image-family upload whose original store
succeeds but whose thumbnail store fails still yields an overall
`success=true` outcome carrying the (present) image URL, no thumbnail URL and
a non-empty warnings list; a video-family upload whose clip store fails
yields an overall `success=false` outcome. -/
theorem C4_ingest_primary_secondary (cfg : Config) (env : Env) (fs : FS)
    (contentSize : Nat) (oname dname : String) (det : DateTime)
    (ft ftv : String) (now : DateTime) (em : Nat) :
    (imageKinds.contains (strLower ft) = true →
     env.writeFail (tempFilePath now em oname) = none →
     (store_image cfg env ((fs.mkdirp tempDirPath).writeFile
        (tempFilePath now em oname) contentSize)
        (tempFilePath now em oname) (extract_device_id dname) (em % 999999)
        det now).1.success = true →
     (store_thumbnail cfg env
        (store_image cfg env ((fs.mkdirp tempDirPath).writeFile
          (tempFilePath now em oname) contentSize)
          (tempFilePath now em oname) (extract_device_id dname) (em % 999999)
          det now).2
        (tempFilePath now em oname) (extract_device_id dname) (em % 999999)
        det now none none).1.success = false →
     ((save_detection_media cfg env fs contentSize oname dname det ft now em).1.success =
        true ∧
      (save_detection_media cfg env fs contentSize oname dname det ft now em).1.image_url =
        (store_image cfg env ((fs.mkdirp tempDirPath).writeFile
          (tempFilePath now em oname) contentSize)
          (tempFilePath now em oname) (extract_device_id dname) (em % 999999)
          det now).1.file_url ∧
      (∃ u, (save_detection_media cfg env fs contentSize oname dname det ft now
        em).1.image_url = some u) ∧
      (save_detection_media cfg env fs contentSize oname dname det ft now
        em).1.thumbnail_url = none ∧
      (save_detection_media cfg env fs contentSize oname dname det ft now
        em).1.warnings ≠ [])) ∧
    (videoKinds.contains (strLower ftv) = true →
     env.writeFail (tempFilePath now em oname) = none →
     (store_video_clip cfg env ((fs.mkdirp tempDirPath).writeFile
        (tempFilePath now em oname) contentSize)
        (tempFilePath now em oname) (extract_device_id dname) (em % 999999)
        det now none none).1.success = false →
     (save_detection_media cfg env fs contentSize oname dname det ftv now
        em).1.success = false) := by
  constructor
  · intro himg hwf hsto hthumb
    unfold save_detection_media
    simp only []
    rw [hwf]
    simp only []
    rw [if_pos himg, if_pos hsto]
    simp only [if_neg (bool_ne_true hthumb)]
    refine ⟨by trivial, by trivial, ?_, by trivial, by simp⟩
    rcases store_image_split cfg env ((fs.mkdirp tempDirPath).writeFile
        (tempFilePath now em oname) contentSize)
        (tempFilePath now em oname) (extract_device_id dname) (em % 999999)
        det now with ⟨n, _, _, heq⟩ | ⟨m, fs', heq⟩
    · exact ⟨_, by rw [heq]⟩
    · rw [heq] at hsto
      exact absurd hsto (by simp [mkFailResult])
  · intro hvid hwf hclip
    unfold save_detection_media
    simp only []
    rw [hwf]
    simp only []
    rw [if_neg (bool_ne_true (kinds_disjoint _ hvid)), if_pos hvid,
      if_neg (bool_ne_true hclip)]
    rfl

/-- Witness for C4: the thumbnail processor reports failure while the image
store succeeds — the ingest outcome is successful with a warning — and a
video upload whose clip store fails makes the ingest outcome a failure. -/
theorem C4_witness :
    (save_detection_media cfgW envToolFailW ⟨[], []⟩ (2 * 1024 * 1024) "photo.jpg"
      "Camera-07" dtDet "image" dtNow 123456).1.success = true ∧
    (save_detection_media cfgW envToolFailW ⟨[], []⟩ (2 * 1024 * 1024) "photo.jpg"
      "Camera-07" dtDet "image" dtNow 123456).1.warnings ≠ [] ∧
    (save_detection_media cfgW envToolFailW ⟨[], []⟩ (2 * 1024 * 1024) "photo.jpg"
      "Camera-07" dtDet "mp4" dtNow 123456).1.success = false :=
  ⟨(((C4_ingest_primary_secondary cfgW envToolFailW ⟨[], []⟩ (2 * 1024 * 1024)
      "photo.jpg" "Camera-07" dtDet "image" "mp4" dtNow 123456).1
      (by decide) rfl (by decide) (by decide)).1),
   (((C4_ingest_primary_secondary cfgW envToolFailW ⟨[], []⟩ (2 * 1024 * 1024)
      "photo.jpg" "Camera-07" dtDet "image" "mp4" dtNow 123456).1
      (by decide) rfl (by decide) (by decide)).2.2.2.2),
   ((C4_ingest_primary_secondary cfgW envToolFailW ⟨[], []⟩ (2 * 1024 * 1024)
      "photo.jpg" "Camera-07" dtDet "image" "mp4" dtNow 123456).2
      (by decide) rfl (by decide))⟩

/-- C7 as the code stands: the scratch file is deleted on the success path
(and would be on the exception path), but the early `return` on a failed
primary store (`file_storage_manager.py:491`, likewise 503 and 507) runs
before the cleanup at line 510-514, so the scratch file survives a failed
store. Evaluated concretely: an 11 MB image upload against the 10 MB ceiling
fails and leaves `/tmp/smartoko_upload/temp_..._photo.jpg` of 11 MB behind,
while the same 2 MB upload succeeds and the scratch file is gone. -/
theorem C7_scratch_leak :
    ((save_detection_media cfgW envW ⟨[], []⟩ (11 * 1024 * 1024) "photo.jpg"
        "Camera-07" dtDet "image" dtNow 123456).1.success = false) ∧
    ((save_detection_media cfgW envW ⟨[], []⟩ (11 * 1024 * 1024) "photo.jpg"
        "Camera-07" dtDet "image" dtNow 123456).2.statSize
        (tempFilePath dtNow 123456 "photo.jpg") = some (11 * 1024 * 1024)) ∧
    ((save_detection_media cfgW envW ⟨[], []⟩ (2 * 1024 * 1024) "photo.jpg"
        "Camera-07" dtDet "image" dtNow 123456).1.success = true) ∧
    ((save_detection_media cfgW envW ⟨[], []⟩ (2 * 1024 * 1024) "photo.jpg"
        "Camera-07" dtDet "image" dtNow 123456).2.statSize
        (tempFilePath dtNow 123456 "photo.jpg") = none) := by
  refine ⟨by decide, by decide, by decide, by decide⟩

end Smartoko
